import Mathlib

/-!
Verification of the LLVM code generator in
`src/branches/llvm-working/Python/ll_compile.cc` (with
`src/branches/llvm-working/Util/TypeBuilder.h`).

The development is a shallow embedding of the generator:

* `Module`, the per-compilation-unit state (named types, declared
  functions, global variables), together with the memoized layout
  builders (`objectTyCache`, `tupleTyCache`, `codeTyCache`,
  `frameTyCache`) mirroring the `TypeBuilder<...>::cache` specializations
  and the symbol cache (`get_global_function`, `get_py_reftotal`,
  `get_py_negativerefcount`, `get_py_dealloc`).
* A small LLVM-IR fragment (`Instr`, `Term`, `BBlock`) and builder state
  (`BuilderState`), with emission functions (`IncRef`, `DecRef`, `Push`,
  `Pop`, `LOAD_CONST`, `LOAD_FAST`, `RETURN_VALUE`, `FormatExcCheckArg`,
  `FallThroughTo`, `mkBuilder`) translated line by line from
  `ll_compile.cc`.
* An executable interpreter (`runFrom`) for the emitted code over a
  symbolic memory `Addr → RtValue`, with external routines supplied by a
  pure oracle and every external call recorded in a trace.

The C preprocessor configuration is modeled by `Config`: `refDebug`
stands for `Py_REF_DEBUG` and `traceRefs` for `Py_TRACE_REFS`, the two
macros the source tests (`#ifdef Py_REF_DEBUG` in IncRef/DecRef,
`#ifdef Py_TRACE_REFS` in `TypeBuilder<PyObject>`).
-/

namespace py

/-- Build-time preprocessor configuration of `ll_compile.cc`:
`refDebug` = `Py_REF_DEBUG`, `traceRefs` = `Py_TRACE_REFS`. -/
structure Config where
  refDebug  : Bool
  traceRefs : Bool
deriving DecidableEq, Repr

/-- LLVM types as built by `Util/TypeBuilder.h`.  Recursive struct types
(`PyObject`) refer to themselves through their registered module name
(`named`), mirroring the opaque-type refinement in the source. -/
inductive LType where
  | int (bits : Nat)
  | ptr (t : LType)
  | named (s : String)
  | strct (fields : List LType)
  | array (t : LType) (n : Nat)
  | void
  | func (ret : LType) (args : List LType) (vararg : Bool)
deriving Repr

/-- `sizeof(Py_ssize_t) * 8` on the (64-bit) host. -/
def ssizeBits : Nat := 64

/-- `sizeof(int) * 8` on the host. -/
def intBits : Nat := 32

/-- `CO_MAXBLOCKS` from the Python headers (`code.h`). -/
def CO_MAXBLOCKS : Nat := 20

inductive Linkage where
  | external
  | internal
  | priv
deriving DecidableEq, Repr

/-- An `llvm::GlobalVariable`; `init = none` makes it a declaration.
The only initializers the generator ever supplies are string constants
(`llvm::ConstantArray::get(format_str)`). -/
structure GlobalVar where
  id      : Nat
  name    : String
  isConst : Bool
  linkage : Linkage
  init    : Option String
deriving DecidableEq, Repr

/-- An `llvm::Function` as seen through the module symbol table.  The
`id` models pointer identity of the `Function*` handle.  The generator
never supplies bodies for the external functions it declares. -/
structure FuncDecl where
  id      : Nat
  name    : String
  sig     : LType
  linkage : Linkage
  hasBody : Bool
deriving Repr

/-- The per-compilation-unit state: named types (`addTypeName` /
`getTypeByName`), declared functions and global variables, and a
counter modelling pointer identity of newly created handles. -/
structure Module where
  typesByName : List (String × LType)
  funcs       : List FuncDecl
  globals     : List GlobalVar
  nextId      : Nat
deriving Repr

def emptyModule : Module := ⟨[], [], [], 0⟩

def Module.getTypeByName (m : Module) (name : String) : Option LType :=
  (m.typesByName.find? (fun p => p.1 == name)).map (·.2)

def Module.addTypeName (m : Module) (name : String) (t : LType) : Module :=
  { m with typesByName := (name, t) :: m.typesByName }

def Module.getFunction (m : Module) (name : String) : Option FuncDecl :=
  m.funcs.find? (fun f => f.name == name)

def Module.getGlobalVariable (m : Module) (name : String) : Option GlobalVar :=
  m.globals.find? (fun g => g.name == name)

/-! ### Layout registry (the `TypeBuilder<...>::cache` specializations) -/

/-- The structural type of `PyObject` (ll_compile.cc lines 56-79):
`[_ob_next, _ob_prev,]` (only under `Py_TRACE_REFS`), `ob_refcnt`
(`ssize_t`), `ob_type` (modeled, as in the source, as a pointer to the
object type itself). -/
def pyObjectStruct (cfg : Config) : LType :=
  let p := LType.ptr (LType.named "__pyobject")
  LType.strct ((if cfg.traceRefs then [p, p] else []) ++
    [LType.int ssizeBits, p])

/-- `TypeBuilder<PyObject>::cache`. -/
def objectTyCache (cfg : Config) (m : Module) : LType × Module :=
  match m.getTypeByName "__pyobject" with
  | some t => (t, m)
  | none =>
    let t := pyObjectStruct cfg
    (t, m.addTypeName "__pyobject" t)

/-- `TypeBuilder<PyObject>::Fields::FIELD_REFCNT`: preceded by
`_ob_next`/`_ob_prev` when `Py_TRACE_REFS` is set. -/
def FIELD_REFCNT (cfg : Config) : Nat := if cfg.traceRefs then 2 else 0

/-- `TypeBuilder<PyTupleObject>::cache`. -/
def tupleTyCache (cfg : Config) (m : Module) : LType × Module :=
  match m.getTypeByName "__pytupleobject" with
  | some t => (t, m)
  | none =>
    let om := objectTyCache cfg m
    let t := LType.strct [om.1, LType.int ssizeBits,
      LType.array (LType.ptr om.1) 0]
    (t, om.2.addTypeName "__pytupleobject" t)

/-- `TypeBuilder<PyTupleObject>::Fields`. -/
def TUPLE_FIELD_ITEM : Nat := 2

/-- `TypeBuilder<PyCodeObject>::cache`. -/
def codeTyCache (cfg : Config) (m : Module) : LType × Module :=
  match m.getTypeByName "__pycodeobject" with
  | some t => (t, m)
  | none =>
    let om := objectTyCache cfg m
    let p := LType.ptr om.1
    let i := LType.int intBits
    let pchar := LType.ptr (LType.int 8)
    let t := LType.strct [om.1, i, i, i, i, p, p, p, p, p, p,
      pchar, p, p, i, p, pchar, p]
    (t, om.2.addTypeName "__pycodeobject" t)

/-- `TypeBuilder<PyCodeObject>::Fields`. -/
def CODE_FIELD_NLOCALS : Nat := 2
def CODE_FIELD_CONSTS : Nat := 6
def CODE_FIELD_NAMES : Nat := 7
def CODE_FIELD_VARNAMES : Nat := 8

/-- `TypeBuilder<PyTryBlock>::cache` (not memoized in the source). -/
def tryBlockTy : LType :=
  LType.strct [LType.int intBits, LType.int intBits, LType.int intBits]

/-- `TypeBuilder<PyFrameObject>::cache`. -/
def frameTyCache (cfg : Config) (m : Module) : LType × Module :=
  match m.getTypeByName "__pyframeobject" with
  | some t => (t, m)
  | none =>
    let om := objectTyCache cfg m
    let p := LType.ptr om.1
    let i := LType.int intBits
    let cm := codeTyCache cfg om.2
    let t := LType.strct [om.1, LType.int ssizeBits,
      p, LType.ptr cm.1, p, p, p,
      LType.ptr p, LType.ptr p,
      p, p, p, p,
      LType.ptr (LType.int 8), i, i, i,
      LType.array tryBlockTy CO_MAXBLOCKS,
      LType.array p 0]
    (t, cm.2.addTypeName "__pyframeobject" t)

/-- `TypeBuilder<PyFrameObject>::Fields`. -/
def FRAME_FIELD_CODE : Nat := 3
def FRAME_FIELD_STACKTOP : Nat := 8
def FRAME_FIELD_LOCALSPLUS : Nat := 18

/-- `get_function_type` (ll_compile.cc lines 272-285): the
`PyObject *(PyFrameObject *)` signature, registered once under
`__function_type`. -/
def get_function_type (cfg : Config) (m : Module) : LType × Module :=
  match m.getTypeByName "__function_type" with
  | some t => (t, m)
  | none =>
    let om := objectTyCache cfg m
    let fm := frameTyCache cfg om.2
    let t := LType.func (LType.ptr om.1) [LType.ptr fm.1] false
    (t, fm.2.addTypeName "__function_type" t)

/-! ### Global symbol cache -/

/-- `get_global_function<FunctionType>` (lines 287-300).  The signature
builder `sigc` (`TypeBuilder<FunctionType>::cache`) runs, as in the
source, only when the function is not yet declared. -/
def get_global_function (sigc : Module → LType × Module) (name : String)
    (m : Module) : FuncDecl × Module :=
  match m.getFunction name with
  | some f => (f, m)
  | none =>
    let sm := sigc m
    let f : FuncDecl := ⟨sm.2.nextId, name, sm.1, .external, false⟩
    (f, { sm.2 with funcs := f :: sm.2.funcs, nextId := sm.2.nextId + 1 })

/-- `get_py_reftotal` (lines 302-321): the external mutable
`_Py_RefTotal` counter, declared (null initializer) on first use. -/
def get_py_reftotal (m : Module) : GlobalVar × Module :=
  match m.getGlobalVariable "_Py_RefTotal" with
  | some g => (g, m)
  | none =>
    let g : GlobalVar :=
      ⟨m.nextId, "_Py_RefTotal", false, .external, none⟩
    (g, { m with globals := g :: m.globals, nextId := m.nextId + 1 })

/-- `TypeBuilder<void(const char*, int, PyObject*)>::cache`. -/
def sigNegativeRefcount (cfg : Config) (m : Module) : LType × Module :=
  let om := objectTyCache cfg m
  (LType.func LType.void
    [LType.ptr (LType.int 8), LType.int intBits, LType.ptr om.1] false, om.2)

/-- `get_py_negativerefcount` (lines 323-337). -/
def get_py_negativerefcount (cfg : Config) (m : Module) :
    FuncDecl × Module :=
  match m.getFunction "_Py_NegativeRefcount" with
  | some f => (f, m)
  | none =>
    let sm := sigNegativeRefcount cfg m
    let f : FuncDecl :=
      ⟨sm.2.nextId, "_Py_NegativeRefcount", sm.1, .external, false⟩
    (f, { sm.2 with funcs := f :: sm.2.funcs, nextId := sm.2.nextId + 1 })

/-- `TypeBuilder<void(PyObject*)>::cache`. -/
def sigDealloc (cfg : Config) (m : Module) : LType × Module :=
  let om := objectTyCache cfg m
  (LType.func LType.void [LType.ptr om.1] false, om.2)

/-- `get_py_dealloc` (lines 339-352). -/
def get_py_dealloc (cfg : Config) (m : Module) : FuncDecl × Module :=
  match m.getFunction "_Py_Dealloc" with
  | some f => (f, m)
  | none =>
    let sm := sigDealloc cfg m
    let f : FuncDecl := ⟨sm.2.nextId, "_Py_Dealloc", sm.1, .external, false⟩
    (f, { sm.2 with funcs := f :: sm.2.funcs, nextId := sm.2.nextId + 1 })

/-- `TypeBuilder<PyObject*(PyObject*, Py_ssize_t)>::cache`
(the `PyTuple_GetItem` signature). -/
def sigTupleGetItem (cfg : Config) (m : Module) : LType × Module :=
  let om := objectTyCache cfg m
  (LType.func (LType.ptr om.1) [LType.ptr om.1, LType.int ssizeBits] false,
    om.2)

/-- `TypeBuilder<PyObject*(PyObject*)>::cache`
(the `PyString_AsString` signature as instantiated in the source). -/
def sigObjToObj (cfg : Config) (m : Module) : LType × Module :=
  let om := objectTyCache cfg m
  (LType.func (LType.ptr om.1) [LType.ptr om.1] false, om.2)

/-- `TypeBuilder<PyObject*(PyObject*, const char*, ...)>::cache`
(the `PyErr_Format` signature). -/
def sigErrFormat (cfg : Config) (m : Module) : LType × Module :=
  let om := objectTyCache cfg m
  (LType.func (LType.ptr om.1) [LType.ptr om.1, LType.ptr (LType.int 8)] true,
    om.2)

/-! ### The emitted IR fragment -/

/-- Symbolic addresses of the runtime memory the emitted code touches:
`alloca` slots of the generated function, module globals, struct fields
(`CreateStructGEP`), and pointer arithmetic (`CreateGEP`). -/
inductive Addr where
  | alloca (n : Nat)
  | global (s : String)
  | field (base : Addr) (idx : Nat)
  | index (base : Addr) (off : Int)
deriving DecidableEq, Repr

/-- Pointer arithmetic (`CreateGEP` with a single index): advancing by
zero elements is the identity, and successive offsets accumulate. -/
def Addr.offset (a : Addr) (i : Int) : Addr :=
  if i = 0 then a
  else
    match a with
    | .index b k => .index b (k + i)
    | _ => .index a i

/-- Runtime values flowing through the emitted code. -/
inductive RtValue where
  | int (v : Int)
  | addr (a : Addr)
  | null
  | str (s : String)
  | undef
deriving DecidableEq, Repr

/-- Instruction operands: SSA registers, signed integer constants, the
null-pointer constant, the address of a global, a string constant
(`llvm::ConstantArray::get`), and the function's single argument (the
frame pointer). -/
inductive Operand where
  | reg (n : Nat)
  | cint (v : Int)
  | cnull
  | globalRef (s : String)
  | cstr (s : String)
  | farg
deriving DecidableEq, Repr

inductive Cmp where
  | ceq
  | cne
  | cslt
deriving DecidableEq, Repr

/-- The IR instructions the generator emits.  `gep3` is the three-index
`CreateGEP` computing `&frame->localsplus[0]` (offset, struct field,
array element); `gep` is single-index pointer arithmetic. -/
inductive Instr where
  | alloca (dst : Nat)
  | load (dst : Nat) (src : Operand)
  | store (val : Operand) (dst : Operand)
  | add (dst : Nat) (a b : Operand)
  | icmp (dst : Nat) (c : Cmp) (a b : Operand)
  | bitcast (dst : Nat) (src : Operand)
  | structGEP (dst : Nat) (base : Operand) (idx : Nat)
  | gep (dst : Nat) (base : Operand) (off : Operand)
  | gep3 (dst : Nat) (base : Operand) (i0 : Int) (f : Nat) (i2 : Int)
  | call (dst : Nat) (fn : String) (args : List Operand)
deriving Repr

inductive Term where
  | br (t : Nat)
  | condbr (c : Operand) (t f : Nat)
  | ret (v : Operand)
deriving Repr

/-- A basic block of the function under construction.  The `id` models
the `BasicBlock*` handle; blocks are kept in creation order. -/
structure BBlock where
  id     : Nat
  name   : String
  instrs : List Instr
  term   : Option Term
deriving Repr

/-! ### The function builder (`LlvmFunctionBuilder`) -/

/-- The member `Value*`s the constructor computes once and every
per-instruction emission consumes (ll_compile.cc lines 354-411). -/
structure BVars where
  stack_pointer_addr : Operand
  varnames           : Operand
  names              : Operand
  consts             : Operand
  fastlocals         : Operand
  freevars           : Operand
deriving Repr

/-- State of one `LlvmFunctionBuilder`: the owning module, the function's
basic blocks in creation order, the current insertion block, fresh
SSA-register and block counters, and the retained member values.  The
frame argument (`frame_`) is the operand `Operand.farg`. -/
structure BuilderState where
  module    : Module
  blocks    : List BBlock
  cur       : Nat
  nextReg   : Nat
  nextBlock : Nat
  vars      : BVars
deriving Repr

abbrev BuildM := StateM BuilderState

def freshReg : BuildM Nat := do
  let s ← get
  set { s with nextReg := s.nextReg + 1 }
  pure s.nextReg

/-- Append an instruction to a block of the list. -/
def addToBlock (blks : List BBlock) (bid : Nat) (i : Instr) : List BBlock :=
  blks.map (fun (b : BBlock) =>
    if b.id = bid then { b with instrs := b.instrs ++ [i] } else b)

/-- Set the terminator of a block of the list. -/
def setBlockTerm (blks : List BBlock) (bid : Nat) (t : Term) : List BBlock :=
  blks.map (fun (b : BBlock) =>
    if b.id = bid then { b with term := some t } else b)

/-- Append an instruction to the current insertion block. -/
def appendInstr (i : Instr) : BuildM Unit := do
  let s ← get
  set { s with blocks := addToBlock s.blocks s.cur i }

/-- `BasicBlock::Create(name, function())`. -/
def newBlock (name : String) : BuildM Nat := do
  let s ← get
  let b : BBlock := ⟨s.nextBlock, name, [], none⟩
  set { s with blocks := s.blocks ++ [b], nextBlock := s.nextBlock + 1 }
  pure s.nextBlock

/-- `builder().SetInsertPoint(b)`. -/
def setInsert (b : Nat) : BuildM Unit := do
  modify fun s => { s with cur := b }

/-- Set the terminator of the current insertion block. -/
def setTerm (t : Term) : BuildM Unit := do
  let s ← get
  set { s with blocks := setBlockTerm s.blocks s.cur t }

/-- `GetInsertBlock()->getTerminator()`. -/
def curTerminator : BuildM (Option Term) := do
  let s ← get
  pure (((s.blocks.find? (fun b => b.id == s.cur)).map (·.term)).join)

def CreateLoad (src : Operand) : BuildM Operand := do
  let r ← freshReg
  appendInstr (.load r src)
  pure (.reg r)

def CreateStore (v dst : Operand) : BuildM Unit :=
  appendInstr (.store v dst)

def CreateAdd (a b : Operand) : BuildM Operand := do
  let r ← freshReg
  appendInstr (.add r a b)
  pure (.reg r)

def CreateICmp (c : Cmp) (a b : Operand) : BuildM Operand := do
  let r ← freshReg
  appendInstr (.icmp r c a b)
  pure (.reg r)

def CreateBitCast (src : Operand) : BuildM Operand := do
  let r ← freshReg
  appendInstr (.bitcast r src)
  pure (.reg r)

def CreateStructGEP (base : Operand) (idx : Nat) : BuildM Operand := do
  let r ← freshReg
  appendInstr (.structGEP r base idx)
  pure (.reg r)

def CreateGEP (base off : Operand) : BuildM Operand := do
  let r ← freshReg
  appendInstr (.gep r base off)
  pure (.reg r)

def CreateGEP3 (base : Operand) (i0 : Int) (f : Nat) (i2 : Int) :
    BuildM Operand := do
  let r ← freshReg
  appendInstr (.gep3 r base i0 f i2)
  pure (.reg r)

def CreateCall (fn : String) (args : List Operand) : BuildM Operand := do
  let r ← freshReg
  appendInstr (.call r fn args)
  pure (.reg r)

def CreateAlloca : BuildM Operand := do
  let r ← freshReg
  appendInstr (.alloca r)
  pure (.reg r)

/-- Run a pure module transformer against the builder's module. -/
def onModule {α : Type} (f : Module → α × Module) : BuildM α := do
  let s ← get
  let (a, m) := f s.module
  set { s with module := m }
  pure a

/-! ### The emitters (`LlvmFunctionBuilder` methods) -/

/-- `UNBOUNDLOCAL_ERROR_MSG` (ll_compile.cc lines 38-39). -/
def UNBOUNDLOCAL_ERROR_MSG : String :=
  "local variable '%.200s' referenced before assignment"

/-- `increment_and_get` (lines 477-487): adds `delta` to `*addr` and
returns the new value. -/
def increment_and_get (addr : Operand) (delta : Int) : BuildM Operand := do
  let orig ← CreateLoad addr
  let updated ← CreateAdd orig (.cint delta)
  CreateStore updated addr
  pure updated

/-- `get_py_reftotal(this->module_)` used as an address operand. -/
def getPyReftotalB : BuildM Operand := do
  let _ ← onModule get_py_reftotal
  pure (Operand.globalRef "_Py_RefTotal")

/-- `LlvmFunctionBuilder::IncRef` (lines 489-503). -/
def IncRef (cfg : Config) (value : Operand) : BuildM Unit := do
  if cfg.refDebug then do
    -- Increment the global reference count.
    let reftotal_addr ← getPyReftotalB
    let _ ← increment_and_get reftotal_addr 1
  let as_pyobject ← CreateBitCast value
  let refcnt_addr ← CreateStructGEP as_pyobject (FIELD_REFCNT cfg)
  let _ ← increment_and_get refcnt_addr 1

/-- The `__LINE__` constant baked into DecRef's negative-refcount call
(line 546 of ll_compile.cc). -/
def decRefSourceLine : Int := 546

/-- `LlvmFunctionBuilder::DecRef` (lines 505-557). -/
def DecRef (cfg : Config) (value : Operand) : BuildM Unit := do
  if cfg.refDebug then do
    -- Decrement the global reference count.
    let reftotal_addr ← getPyReftotalB
    let _ ← increment_and_get reftotal_addr (-1)
  let as_pyobject ← CreateBitCast value
  let refcnt_addr ← CreateStructGEP as_pyobject (FIELD_REFCNT cfg)
  let new_refcnt ← increment_and_get refcnt_addr (-1)
  -- Check if we need to deallocate the object.
  let block_dealloc ← newBlock "dealloc"
  let block_tail ← newBlock "decref_tail"
  let block_ref_ne_zero ←
    if cfg.refDebug then newBlock "check_refcnt" else pure block_tail
  let ne_zero ← CreateICmp .cne new_refcnt (.cint 0)
  setTerm (.condbr ne_zero block_ref_ne_zero block_dealloc)
  if cfg.refDebug then do
    setInsert block_ref_ne_zero
    let less_zero ← CreateICmp .cslt new_refcnt (.cint 0)
    let block_ref_lt_zero ← newBlock "negative_refcount"
    setTerm (.condbr less_zero block_ref_lt_zero block_tail)
    setInsert block_ref_lt_zero
    let _ ← onModule (get_py_negativerefcount cfg)
    let _ ← CreateCall "_Py_NegativeRefcount"
      [.cstr "Python/ll_compile.cc", .cint decRefSourceLine, as_pyobject]
    setTerm (.br block_tail)
  setInsert block_dealloc
  let _ ← onModule (get_py_dealloc cfg)
  let _ ← CreateCall "_Py_Dealloc" [as_pyobject]
  setTerm (.br block_tail)
  setInsert block_tail

/-- `LlvmFunctionBuilder::Push` (lines 559-567). -/
def Push (value : Operand) : BuildM Unit := do
  let s ← get
  let stack_pointer ← CreateLoad s.vars.stack_pointer_addr
  CreateStore value stack_pointer
  let new_stack_pointer ← CreateGEP stack_pointer (.cint 1)
  CreateStore new_stack_pointer s.vars.stack_pointer_addr

/-- `LlvmFunctionBuilder::Pop` (lines 569-578). -/
def Pop : BuildM Operand := do
  let s ← get
  let stack_pointer ← CreateLoad s.vars.stack_pointer_addr
  let new_stack_pointer ← CreateGEP stack_pointer (.cint (-1))
  let former_top ← CreateLoad new_stack_pointer
  CreateStore new_stack_pointer s.vars.stack_pointer_addr
  pure former_top

/-- `LlvmFunctionBuilder::FallThroughTo` (lines 413-422). -/
def FallThroughTo (next_block : Nat) : BuildM Unit := do
  let t ← curTerminator
  if t.isNone then
    -- If the block doesn't already end with a branch or return,
    -- branch to the next block.
    setTerm (.br next_block)
  setInsert next_block

/-- `LlvmFunctionBuilder::FormatExcCheckArg` (lines 587-634). -/
def FormatExcCheckArg (cfg : Config) (exc_name format_str : String)
    (obj : Operand) : BuildM Unit := do
  let skip_exc ← newBlock "end_format_exc"
  let to_string_block ← newBlock "to_string"
  let format_block ← newBlock "format"
  let obj_null ← CreateICmp .ceq obj .cnull
  setTerm (.condbr obj_null skip_exc to_string_block)
  setInsert to_string_block
  let _ ← onModule (get_global_function (sigObjToObj cfg) "PyString_AsString")
  let obj_str ← CreateCall "PyString_AsString" [obj]
  let obj_str_null ← CreateICmp .ceq obj_str .cnull
  setTerm (.condbr obj_str_null skip_exc format_block)
  setInsert format_block
  let _ ← onModule (get_global_function (sigErrFormat cfg) "PyErr_Format")
  -- getGlobalVariable / getOrInsertGlobal for the exception symbol.
  let _ ← onModule (fun (m : Module) =>
    match m.getGlobalVariable exc_name with
    | some g => (g, m)
    | none =>
      let g : GlobalVar := ⟨m.nextId, exc_name, true, .external, none⟩
      (g, { m with globals := g :: m.globals, nextId := m.nextId + 1 }))
  -- The format string is materialized as an internal constant global
  -- (named, as in the source, by the format string itself).
  let _ ← onModule (fun (m : Module) =>
    let g : GlobalVar :=
      ⟨m.nextId, format_str, true, .internal, some format_str⟩
    (g, { m with globals := g :: m.globals, nextId := m.nextId + 1 }))
  let exc_val ← CreateLoad (.globalRef exc_name)
  let fmt_ptr ← CreateStructGEP (.globalRef format_str) 0
  let _ ← CreateCall "PyErr_Format" [exc_val, fmt_ptr, obj_str]
  setTerm (.br skip_exc)
  setInsert skip_exc

/-- `LlvmFunctionBuilder::LOAD_CONST` (lines 424-436). -/
def LOAD_CONST (cfg : Config) (index : Int) : BuildM Unit := do
  let s ← get
  let const_addr ← CreateGEP3 s.vars.consts 0 TUPLE_FIELD_ITEM index
  let const_val ← CreateLoad const_addr
  IncRef cfg const_val
  Push const_val

/-- `LlvmFunctionBuilder::LOAD_FAST` (lines 438-467). -/
def LOAD_FAST (cfg : Config) (index : Int) : BuildM Unit := do
  let unbound_local ← newBlock "LOAD_FAST_unbound"
  let success ← newBlock "LOAD_FAST_success"
  let s ← get
  let local_addr ← CreateGEP s.vars.fastlocals (.cint index)
  let local_val ← CreateLoad local_addr
  let is_null ← CreateICmp .ceq local_val .cnull
  setTerm (.condbr is_null unbound_local success)
  setInsert unbound_local
  let _ ← onModule
    (get_global_function (sigTupleGetItem cfg) "PyTuple_GetItem")
  let varname ← CreateCall "PyTuple_GetItem" [s.vars.varnames, .cint index]
  FormatExcCheckArg cfg "PyExc_UnboundLocalError" UNBOUNDLOCAL_ERROR_MSG
    varname
  setTerm (.ret .cnull)
  setInsert success
  IncRef cfg local_val
  Push local_val

/-- `LlvmFunctionBuilder::RETURN_VALUE` (lines 469-474). -/
def RETURN_VALUE : BuildM Unit := do
  let retval ← Pop
  setTerm (.ret retval)

/-! ### The constructor (`LlvmFunctionBuilder::LlvmFunctionBuilder`) -/

/-- Body of the constructor (lines 354-411), emitted into the entry
block: allocates the stack-pointer slot, initializes it from
`frame->f_stacktop`, loads the code object and its varnames / names /
consts tuples, and computes the locals and free-variable base
addresses. -/
def constructorBody (cfg : Config) : BuildM Unit := do
  let _ ← onModule (objectTyCache cfg)  -- TypeBuilder<PyObject**>::cache
  let stack_pointer_addr ← CreateAlloca
  let stacktop_field ← CreateStructGEP .farg FRAME_FIELD_STACKTOP
  let initial_stack_pointer ← CreateLoad stacktop_field
  CreateStore initial_stack_pointer stack_pointer_addr
  let code_field ← CreateStructGEP .farg FRAME_FIELD_CODE
  let code ← CreateLoad code_field
  let varnames_field ← CreateStructGEP code CODE_FIELD_VARNAMES
  let varnames ← CreateLoad varnames_field
  let names_field ← CreateStructGEP code CODE_FIELD_NAMES
  let names_loaded ← CreateLoad names_field
  let _ ← onModule (tupleTyCache cfg)  -- TypeBuilder<PyTupleObject*>::cache
  let names ← CreateBitCast names_loaded
  let consts_field ← CreateStructGEP code CODE_FIELD_CONSTS
  let consts_loaded ← CreateLoad consts_field
  let _ ← onModule (tupleTyCache cfg)
  let consts ← CreateBitCast consts_loaded
  -- Get the address of frame->localsplus[0].
  let fastlocals ← CreateGEP3 .farg 0 FRAME_FIELD_LOCALSPLUS 0
  let nlocals_field ← CreateStructGEP code CODE_FIELD_NLOCALS
  let nlocals ← CreateLoad nlocals_field
  let freevars ← CreateGEP fastlocals nlocals
  modify fun s => { s with vars :=
    ⟨stack_pointer_addr, varnames, names, consts, fastlocals, freevars⟩ }

/-- A fresh builder before the constructor body runs: one entry block,
the function registered in the module with private linkage. -/
def initialBuilder (cfg : Config) (name : String) (m : Module) :
    BuilderState :=
  let fm := get_function_type cfg m
  let f : FuncDecl := ⟨fm.2.nextId, name, fm.1, .priv, true⟩
  let m2 : Module :=
    { fm.2 with funcs := f :: fm.2.funcs, nextId := fm.2.nextId + 1 }
  { module := m2,
    blocks := [⟨0, "entry", [], none⟩],
    cur := 0, nextReg := 0, nextBlock := 1,
    vars := ⟨.cnull, .cnull, .cnull, .cnull, .cnull, .cnull⟩ }

/-- `LlvmFunctionBuilder::LlvmFunctionBuilder(module, name)`. -/
def mkBuilder (cfg : Config) (name : String) (m : Module) : BuilderState :=
  ((constructorBody cfg).run (initialBuilder cfg name m)).2

/-! ### Execution semantics of the emitted code -/

/-- Two's-complement wraparound of the 64-bit `add` instruction. -/
def wrap64 (v : Int) : Int := (v + 2 ^ 63) % 2 ^ 64 - 2 ^ 63

/-- External routines are pure oracles: the result of a call is a
function of the routine's name and arguments only. -/
def Oracle : Type := String → List RtValue → RtValue

/-- Machine state while running an emitted function: the memory, the
SSA register environment, the value of the frame argument, and the
trace of external calls made so far. -/
structure RunState where
  mem   : Addr → RtValue
  env   : Nat → RtValue
  argv  : RtValue
  trace : List (String × List RtValue)

def updFun {β : Type} (f : Nat → β) (n : Nat) (v : β) : Nat → β :=
  fun x => if x = n then v else f x

def updMem (m : Addr → RtValue) (a : Addr) (v : RtValue) : Addr → RtValue :=
  fun x => if x = a then v else m x

def evalOp (s : RunState) : Operand → RtValue
  | .reg n => s.env n
  | .cint v => .int v
  | .cnull => .null
  | .globalRef g => .addr (.global g)
  | .cstr t => .str t
  | .farg => s.argv

def cmpHolds : Cmp → RtValue → RtValue → Bool
  | .ceq, a, b => decide (a = b)
  | .cne, a, b => !decide (a = b)
  | .cslt, .int a, .int b => decide (a < b)
  | .cslt, _, _ => false

def setReg (s : RunState) (d : Nat) (v : RtValue) : RunState :=
  { s with env := updFun s.env d v }

def execInstr (ext : Oracle) (s : RunState) : Instr → RunState
  | .alloca d => setReg s d (.addr (.alloca d))
  | .load d src =>
    match evalOp s src with
    | .addr a => setReg s d (s.mem a)
    | _ => setReg s d .undef
  | .store v dst =>
    match evalOp s dst with
    | .addr a => { s with mem := updMem s.mem a (evalOp s v) }
    | _ => s
  | .add d a b =>
    match evalOp s a, evalOp s b with
    | .int x, .int y => setReg s d (.int (wrap64 (x + y)))
    | _, _ => setReg s d .undef
  | .icmp d c a b =>
    setReg s d (.int (if cmpHolds c (evalOp s a) (evalOp s b) then 1 else 0))
  | .bitcast d src => setReg s d (evalOp s src)
  | .structGEP d base idx =>
    match evalOp s base with
    | .addr a => setReg s d (.addr (.field a idx))
    | _ => setReg s d .undef
  | .gep d base off =>
    match evalOp s base, evalOp s off with
    | .addr a, .int v => setReg s d (.addr (a.offset v))
    | _, _ => setReg s d .undef
  | .gep3 d base i0 f i2 =>
    match evalOp s base with
    | .addr a => setReg s d (.addr (((a.offset i0).field f).offset i2))
    | _ => setReg s d .undef
  | .call d fn args =>
    let avs := args.map (evalOp s)
    let s1 := { s with trace := s.trace ++ [(fn, avs)] }
    setReg s1 d (ext fn avs)

def execInstrs (ext : Oracle) (s : RunState) : List Instr → RunState
  | [] => s
  | i :: is => execInstrs ext (execInstr ext s i) is

def findBlock (blks : List BBlock) (bid : Nat) : Option BBlock :=
  blks.find? (fun b => b.id == bid)

/-- Run the control-flow graph from block `bid`; `none` means the fuel
ran out or an untermimated/unknown block was reached. -/
def runFrom (ext : Oracle) (blks : List BBlock) :
    Nat → Nat → RunState → Option (RtValue × RunState)
  | 0, _, _ => none
  | fuel + 1, bid, s =>
    match findBlock blks bid with
    | none => none
    | some b =>
      let s1 := execInstrs ext s b.instrs
      match b.term with
      | some (.ret v) => some (evalOp s1 v, s1)
      | some (.br t) => runFrom ext blks fuel t s1
      | some (.condbr c t f) =>
        runFrom ext blks fuel (if evalOp s1 c = .int 1 then t else f) s1
      | none => none

/-- Run an emitted function from its entry block on initial memory `m0`
with argument `argv`. -/
def runOn (ext : Oracle) (bs : BuilderState) (m0 : Addr → RtValue)
    (argv : RtValue) (fuel : Nat) : Option (RtValue × RunState) :=
  runFrom ext bs.blocks fuel 0 ⟨m0, fun _ => .undef, argv, []⟩

/-! ### Harness functions

Each claim about emitted code is settled on a function whose body is
produced by the emitter under scrutiny, exactly as a unit test of the
C++ class would emit it.  The harnesses that do not involve the
retained constructor state use a bare builder; those exercising
`LOAD_FAST` / `Push` / `Pop` go through the real constructor
(`mkBuilder`). -/

/-- A builder with a single empty entry block (no constructor
preamble), for emitters that consume only the cursor and the module. -/
def bareBuilder (m : Module) : BuilderState :=
  { module := m,
    blocks := [⟨0, "entry", [], none⟩],
    cur := 0, nextReg := 0, nextBlock := 1,
    vars := ⟨.cnull, .cnull, .cnull, .cnull, .cnull, .cnull⟩ }

def emitInto (act : BuildM Unit) (bs : BuilderState) : BuilderState :=
  (act.run bs).2

/-- `DecRef` applied to the function argument, closed by a return in the
continuation block. -/
def decRefHarness (cfg : Config) : BuilderState :=
  emitInto (do
    DecRef cfg .farg
    setTerm (.ret .cnull)) (bareBuilder emptyModule)

/-- `IncRef` immediately followed by `DecRef` on the same value. -/
def incDecHarness (cfg : Config) : BuilderState :=
  emitInto (do
    IncRef cfg .farg
    DecRef cfg .farg
    setTerm (.ret .cnull)) (bareBuilder emptyModule)

/-- `FormatExcCheckArg` applied to the function argument. -/
def fmtHarness (cfg : Config) (exc_name format_str : String) :
    BuilderState :=
  emitInto (do
    FormatExcCheckArg cfg exc_name format_str .farg
    setTerm (.ret .cnull)) (bareBuilder emptyModule)

/-- The constructor followed by `Push v` and `Pop`, returning the popped
value. -/
def pushPopHarness (cfg : Config) (v : Operand) : BuilderState :=
  emitInto (do
    Push v
    let r ← Pop
    setTerm (.ret r)) (mkBuilder cfg "pushpop" emptyModule)

/-- The constructor followed by `LOAD_FAST i` and `RETURN_VALUE` (the
spec's second end-to-end scenario). -/
def loadFastHarness (cfg : Config) (i : Int) : BuilderState :=
  emitInto (do
    LOAD_FAST cfg i
    RETURN_VALUE) (mkBuilder cfg "loadfast" emptyModule)

/-- The constructor followed by one of each implemented opcode, for the
structural frame-effect claims. -/
def combinedHarness (cfg : Config) : BuilderState :=
  emitInto (do
    LOAD_CONST cfg 0
    LOAD_FAST cfg 1
    RETURN_VALUE) (mkBuilder cfg "combined" emptyModule)

/-- All instructions of an emitted function, in block-creation order. -/
def allInstrs (bs : BuilderState) : List Instr :=
  (bs.blocks.map (·.instrs)).flatten

/-! ### Observation helpers -/

/-- Returned value of a run. -/
def runRet (o : Option (RtValue × RunState)) : Option RtValue := o.map (·.1)

/-- External-call trace of a run. -/
def runTrace (o : Option (RtValue × RunState)) :
    Option (List (String × List RtValue)) := o.map (·.2.trace)

/-- Final memory of a run, observed at one address. -/
def runMemAt (o : Option (RtValue × RunState)) (a : Addr) :
    Option RtValue := o.map (·.2.mem a)

/-- Address of local-variable slot `i`: the `CreateGEP` off the
`&frame->localsplus[0]` base computed by the constructor. -/
def localSlot (frame : Addr) (i : Int) : Addr :=
  Addr.offset (Addr.field frame FRAME_FIELD_LOCALSPLUS) i

/-- Address of the object-header reference-count field of the object at
`a`, under configuration `cfg`. -/
def refcntAddr (cfg : Config) (a : Addr) : Addr :=
  Addr.field a (FIELD_REFCNT cfg)

/-- Every path out of block `b` (following branch targets for at most
`fuel` steps) ends up, still inside this function, at block `tgt`. -/
def allPathsReach (blks : List BBlock) (tgt : Nat) :
    Nat → Nat → Bool
  | 0, _ => false
  | fuel + 1, b =>
    b == tgt ||
      (match findBlock blks b with
       | none => false
       | some blk =>
         match blk.term with
         | some (.br t) => allPathsReach blks tgt fuel t
         | some (.condbr _ t f) =>
           allPathsReach blks tgt fuel t && allPathsReach blks tgt fuel f
         | _ => false)

/-- Control from every block of the list converges on block `tgt`. -/
def blocksConverge (blks : List BBlock) (tgt : Nat) : Bool :=
  blks.all (fun b => allPathsReach blks tgt 8 b.id)

/-- Does the instruction read or write the `_Py_RefTotal` counter? -/
def touchesRefTotal : Instr → Bool
  | .load _ (.globalRef g) => g == "_Py_RefTotal"
  | .store _ (.globalRef g) => g == "_Py_RefTotal"
  | _ => false

/-- Does the instruction call the named external routine? -/
def callsExternal (name : String) : Instr → Bool
  | .call _ fn _ => fn == name
  | _ => false

/-- The emitted `IncRef`+`DecRef` code maintains the process-wide
total-reference counter. -/
def emitsRefTotalCount (cfg : Config) : Bool :=
  (allInstrs (incDecHarness cfg)).any touchesRefTotal

/-- The emitted `DecRef` code contains the negative-refcount check. -/
def emitsNegCheck (cfg : Config) : Bool :=
  (allInstrs (decRefHarness cfg)).any (callsExternal "_Py_NegativeRefcount")

/-- The registered object-header layout carries the extra
`_ob_next`/`_ob_prev` debug fields (4 header fields instead of 2). -/
def headerHasTraceFields (cfg : Config) : Bool :=
  match (objectTyCache cfg emptyModule).1 with
  | .strct l => l.length == 4
  | _ => false

/-- Registers holding the address of `frame->f_stacktop` (destinations
of `CreateStructGEP(frame_, FIELD_STACKTOP)`). -/
def stacktopGepRegs (l : List Instr) : List Nat :=
  l.filterMap (fun i =>
    match i with
    | .structGEP d .farg f => if f = FRAME_FIELD_STACKTOP then some d else none
    | _ => none)

/-- Number of loads through any of the registers `rs`. -/
def loadsThrough (l : List Instr) (rs : List Nat) : Nat :=
  (l.filter (fun i =>
    match i with
    | .load _ (.reg r) => rs.contains r
    | _ => false)).length

/-- Number of stores through any of the registers `rs`. -/
def storesThrough (l : List Instr) (rs : List Nat) : Nat :=
  (l.filter (fun i =>
    match i with
    | .store _ (.reg r) => rs.contains r
    | _ => false)).length

/-! ### Evaluation lemmas for the builder primitives -/

theorem freshReg_run (s : BuilderState) :
    StateT.run freshReg s = (s.nextReg, { s with nextReg := s.nextReg + 1 }) :=
  rfl

theorem appendInstr_run (i : Instr) (s : BuilderState) :
    StateT.run (appendInstr i) s =
      ((), { s with blocks := addToBlock s.blocks s.cur i }) := rfl

theorem newBlock_run (name : String) (s : BuilderState) :
    StateT.run (newBlock name) s =
      (s.nextBlock, { s with
        blocks := s.blocks ++ [⟨s.nextBlock, name, [], none⟩],
        nextBlock := s.nextBlock + 1 }) := rfl

theorem setInsert_run (b : Nat) (s : BuilderState) :
    StateT.run (setInsert b) s = ((), { s with cur := b }) := rfl

theorem setTerm_run (t : Term) (s : BuilderState) :
    StateT.run (setTerm t) s =
      ((), { s with blocks := setBlockTerm s.blocks s.cur t }) := rfl

theorem curTerminator_run (s : BuilderState) :
    StateT.run curTerminator s =
      ((((s.blocks.find? (fun b => b.id == s.cur)).map (·.term)).join), s) :=
  rfl

theorem onModule_run {α : Type} (f : Module → α × Module) (s : BuilderState) :
    StateT.run (onModule f) s =
      ((f s.module).1, { s with module := (f s.module).2 }) := rfl

/-! ### Explicit shapes of the emitted functions

Each `..Blocks..` definition below is the literal control-flow graph the
corresponding harness emits (proved equal by `rfl`), so that the run
lemmas can execute over a literal block list. -/

/-- `decRefHarness` with `Py_REF_DEBUG` off. -/
def decRefBlocksND (tr : Bool) : List BBlock :=
  [⟨0, "entry",
    [.bitcast 0 .farg,
     .structGEP 1 (.reg 0) (FIELD_REFCNT ⟨false, tr⟩),
     .load 2 (.reg 1),
     .add 3 (.reg 2) (.cint (-1)),
     .store (.reg 3) (.reg 1),
     .icmp 4 .cne (.reg 3) (.cint 0)],
    some (.condbr (.reg 4) 2 1)⟩,
   ⟨1, "dealloc", [.call 5 "_Py_Dealloc" [.reg 0]], some (.br 2)⟩,
   ⟨2, "decref_tail", [], some (.ret .cnull)⟩]

set_option maxHeartbeats 4000000 in
theorem decRefHarness_blocks_nd (tr : Bool) :
    (decRefHarness ⟨false, tr⟩).blocks = decRefBlocksND tr := by
  simp only [decRefHarness, emitInto, bareBuilder, DecRef,
    increment_and_get, getPyReftotalB,
    CreateLoad, CreateStore, CreateAdd, CreateICmp, CreateBitCast,
    CreateStructGEP, CreateGEP, CreateGEP3, CreateCall, CreateAlloca,
    freshReg_run, appendInstr_run, newBlock_run, setInsert_run,
    setTerm_run, onModule_run, StateT.run_bind, StateT.run_pure,
    StateT.run_map, StateT.run_get, StateT.run_set, StateT.run_modify,
    Id.bind_eq, Id.pure_eq, Id.map_eq,
    Bool.false_eq_true, Bool.true_eq_false, eq_self_iff_true,
    if_true, if_false, Nat.reduceAdd, Nat.reduceEqDiff, reduceIte,
    addToBlock, setBlockTerm,
    List.map_cons, List.map_nil, List.cons_append, List.nil_append,
    decRefBlocksND]

/-- `decRefHarness` with `Py_REF_DEBUG` on. -/
def decRefBlocksD (tr : Bool) : List BBlock :=
  [⟨0, "entry",
    [.load 0 (.globalRef "_Py_RefTotal"),
     .add 1 (.reg 0) (.cint (-1)),
     .store (.reg 1) (.globalRef "_Py_RefTotal"),
     .bitcast 2 .farg,
     .structGEP 3 (.reg 2) (FIELD_REFCNT ⟨true, tr⟩),
     .load 4 (.reg 3),
     .add 5 (.reg 4) (.cint (-1)),
     .store (.reg 5) (.reg 3),
     .icmp 6 .cne (.reg 5) (.cint 0)],
    some (.condbr (.reg 6) 3 1)⟩,
   ⟨1, "dealloc", [.call 9 "_Py_Dealloc" [.reg 2]], some (.br 2)⟩,
   ⟨2, "decref_tail", [], some (.ret .cnull)⟩,
   ⟨3, "check_refcnt",
    [.icmp 7 .cslt (.reg 5) (.cint 0)],
    some (.condbr (.reg 7) 4 2)⟩,
   ⟨4, "negative_refcount",
    [.call 8 "_Py_NegativeRefcount"
      [.cstr "Python/ll_compile.cc", .cint decRefSourceLine, .reg 2]],
    some (.br 2)⟩]

set_option maxHeartbeats 4000000 in
theorem decRefHarness_blocks_d (tr : Bool) :
    (decRefHarness ⟨true, tr⟩).blocks = decRefBlocksD tr := by
  simp only [decRefHarness, emitInto, bareBuilder, DecRef,
    increment_and_get, getPyReftotalB,
    CreateLoad, CreateStore, CreateAdd, CreateICmp, CreateBitCast,
    CreateStructGEP, CreateGEP, CreateGEP3, CreateCall, CreateAlloca,
    freshReg_run, appendInstr_run, newBlock_run, setInsert_run,
    setTerm_run, onModule_run, StateT.run_bind, StateT.run_pure,
    StateT.run_map, StateT.run_get, StateT.run_set, StateT.run_modify,
    Id.bind_eq, Id.pure_eq, Id.map_eq,
    Bool.false_eq_true, Bool.true_eq_false, eq_self_iff_true,
    if_true, if_false, Nat.reduceAdd, Nat.reduceEqDiff, reduceIte,
    addToBlock, setBlockTerm,
    List.map_cons, List.map_nil, List.cons_append, List.nil_append,
    decRefBlocksD]

/-- `incDecHarness` with `Py_REF_DEBUG` off. -/
def incDecBlocksND (tr : Bool) : List BBlock :=
  [⟨0, "entry",
    [.bitcast 0 .farg,
     .structGEP 1 (.reg 0) (FIELD_REFCNT ⟨false, tr⟩),
     .load 2 (.reg 1),
     .add 3 (.reg 2) (.cint 1),
     .store (.reg 3) (.reg 1),
     .bitcast 4 .farg,
     .structGEP 5 (.reg 4) (FIELD_REFCNT ⟨false, tr⟩),
     .load 6 (.reg 5),
     .add 7 (.reg 6) (.cint (-1)),
     .store (.reg 7) (.reg 5),
     .icmp 8 .cne (.reg 7) (.cint 0)],
    some (.condbr (.reg 8) 2 1)⟩,
   ⟨1, "dealloc", [.call 9 "_Py_Dealloc" [.reg 4]], some (.br 2)⟩,
   ⟨2, "decref_tail", [], some (.ret .cnull)⟩]

set_option maxHeartbeats 4000000 in
theorem incDecHarness_blocks_nd (tr : Bool) :
    (incDecHarness ⟨false, tr⟩).blocks = incDecBlocksND tr := by
  simp only [incDecHarness, emitInto, bareBuilder, IncRef, DecRef,
    increment_and_get, getPyReftotalB,
    CreateLoad, CreateStore, CreateAdd, CreateICmp, CreateBitCast,
    CreateStructGEP, CreateGEP, CreateGEP3, CreateCall, CreateAlloca,
    freshReg_run, appendInstr_run, newBlock_run, setInsert_run,
    setTerm_run, onModule_run, StateT.run_bind, StateT.run_pure,
    StateT.run_map, StateT.run_get, StateT.run_set, StateT.run_modify,
    Id.bind_eq, Id.pure_eq, Id.map_eq,
    Bool.false_eq_true, Bool.true_eq_false, eq_self_iff_true,
    if_true, if_false, Nat.reduceAdd, Nat.reduceEqDiff, reduceIte,
    addToBlock, setBlockTerm,
    List.map_cons, List.map_nil, List.cons_append, List.nil_append,
    incDecBlocksND]

/-- `incDecHarness` with `Py_REF_DEBUG` on. -/
def incDecBlocksD (tr : Bool) : List BBlock :=
  [⟨0, "entry",
    [.load 0 (.globalRef "_Py_RefTotal"),
     .add 1 (.reg 0) (.cint 1),
     .store (.reg 1) (.globalRef "_Py_RefTotal"),
     .bitcast 2 .farg,
     .structGEP 3 (.reg 2) (FIELD_REFCNT ⟨true, tr⟩),
     .load 4 (.reg 3),
     .add 5 (.reg 4) (.cint 1),
     .store (.reg 5) (.reg 3),
     .load 6 (.globalRef "_Py_RefTotal"),
     .add 7 (.reg 6) (.cint (-1)),
     .store (.reg 7) (.globalRef "_Py_RefTotal"),
     .bitcast 8 .farg,
     .structGEP 9 (.reg 8) (FIELD_REFCNT ⟨true, tr⟩),
     .load 10 (.reg 9),
     .add 11 (.reg 10) (.cint (-1)),
     .store (.reg 11) (.reg 9),
     .icmp 12 .cne (.reg 11) (.cint 0)],
    some (.condbr (.reg 12) 3 1)⟩,
   ⟨1, "dealloc", [.call 15 "_Py_Dealloc" [.reg 8]], some (.br 2)⟩,
   ⟨2, "decref_tail", [], some (.ret .cnull)⟩,
   ⟨3, "check_refcnt",
    [.icmp 13 .cslt (.reg 11) (.cint 0)],
    some (.condbr (.reg 13) 4 2)⟩,
   ⟨4, "negative_refcount",
    [.call 14 "_Py_NegativeRefcount"
      [.cstr "Python/ll_compile.cc", .cint decRefSourceLine, .reg 8]],
    some (.br 2)⟩]

set_option maxHeartbeats 4000000 in
theorem incDecHarness_blocks_d (tr : Bool) :
    (incDecHarness ⟨true, tr⟩).blocks = incDecBlocksD tr := by
  simp only [incDecHarness, emitInto, bareBuilder, IncRef, DecRef,
    increment_and_get, getPyReftotalB,
    CreateLoad, CreateStore, CreateAdd, CreateICmp, CreateBitCast,
    CreateStructGEP, CreateGEP, CreateGEP3, CreateCall, CreateAlloca,
    freshReg_run, appendInstr_run, newBlock_run, setInsert_run,
    setTerm_run, onModule_run, StateT.run_bind, StateT.run_pure,
    StateT.run_map, StateT.run_get, StateT.run_set, StateT.run_modify,
    Id.bind_eq, Id.pure_eq, Id.map_eq,
    Bool.false_eq_true, Bool.true_eq_false, eq_self_iff_true,
    if_true, if_false, Nat.reduceAdd, Nat.reduceEqDiff, reduceIte,
    addToBlock, setBlockTerm,
    List.map_cons, List.map_nil, List.cons_append, List.nil_append,
    incDecBlocksD]

/-- `fmtHarness` (independent of the configuration). -/
def fmtBlocks (exc fmt : String) : List BBlock :=
  [⟨0, "entry",
    [.icmp 0 .ceq .farg .cnull],
    some (.condbr (.reg 0) 1 2)⟩,
   ⟨1, "end_format_exc", [], some (.ret .cnull)⟩,
   ⟨2, "to_string",
    [.call 1 "PyString_AsString" [.farg],
     .icmp 2 .ceq (.reg 1) .cnull],
    some (.condbr (.reg 2) 1 3)⟩,
   ⟨3, "format",
    [.load 3 (.globalRef exc),
     .structGEP 4 (.globalRef fmt) 0,
     .call 5 "PyErr_Format" [.reg 3, .reg 4, .reg 1]],
    some (.br 1)⟩]

set_option maxHeartbeats 4000000 in
theorem fmtHarness_blocks (cfg : Config) (exc fmt : String) :
    (fmtHarness cfg exc fmt).blocks = fmtBlocks exc fmt := by
  simp only [fmtHarness, emitInto, bareBuilder, FormatExcCheckArg,
    increment_and_get, getPyReftotalB,
    CreateLoad, CreateStore, CreateAdd, CreateICmp, CreateBitCast,
    CreateStructGEP, CreateGEP, CreateGEP3, CreateCall, CreateAlloca,
    freshReg_run, appendInstr_run, newBlock_run, setInsert_run,
    setTerm_run, onModule_run, StateT.run_bind, StateT.run_pure,
    StateT.run_map, StateT.run_get, StateT.run_set, StateT.run_modify,
    Id.bind_eq, Id.pure_eq, Id.map_eq,
    Bool.false_eq_true, Bool.true_eq_false, eq_self_iff_true,
    if_true, if_false, Nat.reduceAdd, Nat.reduceEqDiff, reduceIte,
    addToBlock, setBlockTerm,
    List.map_cons, List.map_nil, List.cons_append, List.nil_append,
    fmtBlocks]

/-- The constructor preamble (identical across configurations and
harnesses built on `mkBuilder`). -/
def preludeInstrs : List Instr :=
  [.alloca 0,
   .structGEP 1 .farg FRAME_FIELD_STACKTOP,
   .load 2 (.reg 1),
   .store (.reg 2) (.reg 0),
   .structGEP 3 .farg FRAME_FIELD_CODE,
   .load 4 (.reg 3),
   .structGEP 5 (.reg 4) CODE_FIELD_VARNAMES,
   .load 6 (.reg 5),
   .structGEP 7 (.reg 4) CODE_FIELD_NAMES,
   .load 8 (.reg 7),
   .bitcast 9 (.reg 8),
   .structGEP 10 (.reg 4) CODE_FIELD_CONSTS,
   .load 11 (.reg 10),
   .bitcast 12 (.reg 11),
   .gep3 13 .farg 0 FRAME_FIELD_LOCALSPLUS 0,
   .structGEP 14 (.reg 4) CODE_FIELD_NLOCALS,
   .load 15 (.reg 14),
   .gep 16 (.reg 13) (.reg 15)]

/-- `pushPopHarness` (independent of the configuration). -/
def pushPopBlocks (v : Operand) : List BBlock :=
  [⟨0, "entry",
    preludeInstrs ++
    [.load 17 (.reg 0),
     .store v (.reg 17),
     .gep 18 (.reg 17) (.cint 1),
     .store (.reg 18) (.reg 0),
     .load 19 (.reg 0),
     .gep 20 (.reg 19) (.cint (-1)),
     .load 21 (.reg 20),
     .store (.reg 20) (.reg 0)],
    some (.ret (.reg 21))⟩]

set_option maxHeartbeats 4000000 in
theorem pushPopHarness_blocks (cfg : Config) (v : Operand) :
    (pushPopHarness cfg v).blocks = pushPopBlocks v := by
  simp only [pushPopHarness, emitInto, mkBuilder, constructorBody, initialBuilder, Push, Pop,
    increment_and_get, getPyReftotalB,
    CreateLoad, CreateStore, CreateAdd, CreateICmp, CreateBitCast,
    CreateStructGEP, CreateGEP, CreateGEP3, CreateCall, CreateAlloca,
    freshReg_run, appendInstr_run, newBlock_run, setInsert_run,
    setTerm_run, onModule_run, StateT.run_bind, StateT.run_pure,
    StateT.run_map, StateT.run_get, StateT.run_set, StateT.run_modify,
    Id.bind_eq, Id.pure_eq, Id.map_eq,
    Bool.false_eq_true, Bool.true_eq_false, eq_self_iff_true,
    if_true, if_false, Nat.reduceAdd, Nat.reduceEqDiff, reduceIte,
    addToBlock, setBlockTerm,
    List.map_cons, List.map_nil, List.cons_append, List.nil_append,
    pushPopBlocks, preludeInstrs]

/-- `loadFastHarness` with `Py_REF_DEBUG` off. -/
def loadFastBlocksND (tr : Bool) (i : Int) : List BBlock :=
  [⟨0, "entry",
    preludeInstrs ++
    [.gep 17 (.reg 13) (.cint i),
     .load 18 (.reg 17),
     .icmp 19 .ceq (.reg 18) .cnull],
    some (.condbr (.reg 19) 1 2)⟩,
   ⟨1, "LOAD_FAST_unbound",
    [.call 20 "PyTuple_GetItem" [.reg 6, .cint i],
     .icmp 21 .ceq (.reg 20) .cnull],
    some (.condbr (.reg 21) 3 4)⟩,
   ⟨2, "LOAD_FAST_success",
    [.bitcast 27 (.reg 18),
     .structGEP 28 (.reg 27) (FIELD_REFCNT ⟨false, tr⟩),
     .load 29 (.reg 28),
     .add 30 (.reg 29) (.cint 1),
     .store (.reg 30) (.reg 28),
     .load 31 (.reg 0),
     .store (.reg 18) (.reg 31),
     .gep 32 (.reg 31) (.cint 1),
     .store (.reg 32) (.reg 0),
     .load 33 (.reg 0),
     .gep 34 (.reg 33) (.cint (-1)),
     .load 35 (.reg 34),
     .store (.reg 34) (.reg 0)],
    some (.ret (.reg 35))⟩,
   ⟨3, "end_format_exc", [], some (.ret .cnull)⟩,
   ⟨4, "to_string",
    [.call 22 "PyString_AsString" [.reg 20],
     .icmp 23 .ceq (.reg 22) .cnull],
    some (.condbr (.reg 23) 3 5)⟩,
   ⟨5, "format",
    [.load 24 (.globalRef "PyExc_UnboundLocalError"),
     .structGEP 25 (.globalRef UNBOUNDLOCAL_ERROR_MSG) 0,
     .call 26 "PyErr_Format" [.reg 24, .reg 25, .reg 22]],
    some (.br 3)⟩]

set_option maxHeartbeats 4000000 in
theorem loadFastHarness_blocks_nd (tr : Bool) (i : Int) :
    (loadFastHarness ⟨false, tr⟩ i).blocks = loadFastBlocksND tr i := by
  simp only [loadFastHarness, emitInto, mkBuilder, constructorBody, initialBuilder, LOAD_FAST, RETURN_VALUE, Push, Pop, IncRef, FormatExcCheckArg,
    increment_and_get, getPyReftotalB,
    CreateLoad, CreateStore, CreateAdd, CreateICmp, CreateBitCast,
    CreateStructGEP, CreateGEP, CreateGEP3, CreateCall, CreateAlloca,
    freshReg_run, appendInstr_run, newBlock_run, setInsert_run,
    setTerm_run, onModule_run, StateT.run_bind, StateT.run_pure,
    StateT.run_map, StateT.run_get, StateT.run_set, StateT.run_modify,
    Id.bind_eq, Id.pure_eq, Id.map_eq,
    Bool.false_eq_true, Bool.true_eq_false, eq_self_iff_true,
    if_true, if_false, Nat.reduceAdd, Nat.reduceEqDiff, reduceIte,
    addToBlock, setBlockTerm,
    List.map_cons, List.map_nil, List.cons_append, List.nil_append,
    loadFastBlocksND, preludeInstrs]

/-- `loadFastHarness` with `Py_REF_DEBUG` on. -/
def loadFastBlocksD (tr : Bool) (i : Int) : List BBlock :=
  [⟨0, "entry",
    preludeInstrs ++
    [.gep 17 (.reg 13) (.cint i),
     .load 18 (.reg 17),
     .icmp 19 .ceq (.reg 18) .cnull],
    some (.condbr (.reg 19) 1 2)⟩,
   ⟨1, "LOAD_FAST_unbound",
    [.call 20 "PyTuple_GetItem" [.reg 6, .cint i],
     .icmp 21 .ceq (.reg 20) .cnull],
    some (.condbr (.reg 21) 3 4)⟩,
   ⟨2, "LOAD_FAST_success",
    [.load 27 (.globalRef "_Py_RefTotal"),
     .add 28 (.reg 27) (.cint 1),
     .store (.reg 28) (.globalRef "_Py_RefTotal"),
     .bitcast 29 (.reg 18),
     .structGEP 30 (.reg 29) (FIELD_REFCNT ⟨true, tr⟩),
     .load 31 (.reg 30),
     .add 32 (.reg 31) (.cint 1),
     .store (.reg 32) (.reg 30),
     .load 33 (.reg 0),
     .store (.reg 18) (.reg 33),
     .gep 34 (.reg 33) (.cint 1),
     .store (.reg 34) (.reg 0),
     .load 35 (.reg 0),
     .gep 36 (.reg 35) (.cint (-1)),
     .load 37 (.reg 36),
     .store (.reg 36) (.reg 0)],
    some (.ret (.reg 37))⟩,
   ⟨3, "end_format_exc", [], some (.ret .cnull)⟩,
   ⟨4, "to_string",
    [.call 22 "PyString_AsString" [.reg 20],
     .icmp 23 .ceq (.reg 22) .cnull],
    some (.condbr (.reg 23) 3 5)⟩,
   ⟨5, "format",
    [.load 24 (.globalRef "PyExc_UnboundLocalError"),
     .structGEP 25 (.globalRef UNBOUNDLOCAL_ERROR_MSG) 0,
     .call 26 "PyErr_Format" [.reg 24, .reg 25, .reg 22]],
    some (.br 3)⟩]

set_option maxHeartbeats 4000000 in
theorem loadFastHarness_blocks_d (tr : Bool) (i : Int) :
    (loadFastHarness ⟨true, tr⟩ i).blocks = loadFastBlocksD tr i := by
  simp only [loadFastHarness, emitInto, mkBuilder, constructorBody, initialBuilder, LOAD_FAST, RETURN_VALUE, Push, Pop, IncRef, FormatExcCheckArg,
    increment_and_get, getPyReftotalB,
    CreateLoad, CreateStore, CreateAdd, CreateICmp, CreateBitCast,
    CreateStructGEP, CreateGEP, CreateGEP3, CreateCall, CreateAlloca,
    freshReg_run, appendInstr_run, newBlock_run, setInsert_run,
    setTerm_run, onModule_run, StateT.run_bind, StateT.run_pure,
    StateT.run_map, StateT.run_get, StateT.run_set, StateT.run_modify,
    Id.bind_eq, Id.pure_eq, Id.map_eq,
    Bool.false_eq_true, Bool.true_eq_false, eq_self_iff_true,
    if_true, if_false, Nat.reduceAdd, Nat.reduceEqDiff, reduceIte,
    addToBlock, setBlockTerm,
    List.map_cons, List.map_nil, List.cons_append, List.nil_append,
    loadFastBlocksD, preludeInstrs]

/-! ### Symbolic executions of the emitted code -/

theorem decRef_run_nd (tr : Bool) (n : Int) (a : Addr)
    (m0 : Addr → RtValue) (ext : Oracle)
    (hm : m0 (Addr.field a (FIELD_REFCNT ⟨false, tr⟩)) = .int n)
    (hlo : -(2 ^ 63) < n) (hhi : n < 2 ^ 63) :
    runRet (runOn ext (decRefHarness ⟨false, tr⟩) m0 (.addr a) 8) =
      some .null ∧
    runTrace (runOn ext (decRefHarness ⟨false, tr⟩) m0 (.addr a) 8) =
      some (if n - 1 = 0 then [("_Py_Dealloc", [RtValue.addr a])] else []) ∧
    runMemAt (runOn ext (decRefHarness ⟨false, tr⟩) m0 (.addr a) 8)
      (Addr.field a (FIELD_REFCNT ⟨false, tr⟩)) = some (.int (n - 1)) := by
  have hw : wrap64 (n + -1) = n - 1 := by unfold wrap64; omega
  by_cases hz : n - 1 = 0 <;>
    refine ⟨?_, ?_, ?_⟩ <;>
    simp [runOn, decRefHarness_blocks_nd, decRefBlocksND, runFrom,
      findBlock, execInstrs, execInstr, evalOp, setReg,
      updFun, updMem, cmpHolds, hm, hw, hz, RtValue.int.injEq,
      runRet, runTrace, runMemAt]

theorem decRef_run_d (tr : Bool) (n rt0 : Int) (a : Addr)
    (m0 : Addr → RtValue) (ext : Oracle)
    (hm : m0 (Addr.field a (FIELD_REFCNT ⟨true, tr⟩)) = .int n)
    (hrt : m0 (Addr.global "_Py_RefTotal") = .int rt0)
    (hlo : -(2 ^ 63) < n) (hhi : n < 2 ^ 63) :
    runRet (runOn ext (decRefHarness ⟨true, tr⟩) m0 (.addr a) 8) =
      some .null ∧
    runTrace (runOn ext (decRefHarness ⟨true, tr⟩) m0 (.addr a) 8) =
      some (if n - 1 = 0 then [("_Py_Dealloc", [RtValue.addr a])]
        else if n - 1 < 0 then
          [("_Py_NegativeRefcount",
            [RtValue.str "Python/ll_compile.cc", .int decRefSourceLine,
             .addr a])]
        else []) ∧
    runMemAt (runOn ext (decRefHarness ⟨true, tr⟩) m0 (.addr a) 8)
      (Addr.field a (FIELD_REFCNT ⟨true, tr⟩)) = some (.int (n - 1)) := by
  have hw : wrap64 (n + -1) = n - 1 := by unfold wrap64; omega
  by_cases hz : n - 1 = 0
  · refine ⟨?_, ?_, ?_⟩ <;>
      simp [runOn, decRefHarness_blocks_d, decRefBlocksD, runFrom,
        findBlock, execInstrs, execInstr, evalOp, setReg,
        updFun, updMem, cmpHolds, hm, hrt, hw, hz, RtValue.int.injEq,
        runRet, runTrace, runMemAt]
  · by_cases hneg : n - 1 < 0 <;>
      refine ⟨?_, ?_, ?_⟩ <;>
      simp [runOn, decRefHarness_blocks_d, decRefBlocksD, runFrom,
        findBlock, execInstrs, execInstr, evalOp, setReg,
        updFun, updMem, cmpHolds, hm, hrt, hw, hz, hneg, RtValue.int.injEq,
        runRet, runTrace, runMemAt]


theorem incDec_run_nd (tr : Bool) (n : Int) (a : Addr)
    (m0 : Addr → RtValue) (ext : Oracle)
    (hm : m0 (Addr.field a (FIELD_REFCNT ⟨false, tr⟩)) = .int n)
    (h1 : 1 ≤ n) (hhi : n + 1 < 2 ^ 63) :
    runRet (runOn ext (incDecHarness ⟨false, tr⟩) m0 (.addr a) 8) =
      some .null ∧
    runTrace (runOn ext (incDecHarness ⟨false, tr⟩) m0 (.addr a) 8) =
      some [] ∧
    runMemAt (runOn ext (incDecHarness ⟨false, tr⟩) m0 (.addr a) 8)
      (Addr.field a (FIELD_REFCNT ⟨false, tr⟩)) = some (.int n) := by
  have hw1 : wrap64 (n + 1) = n + 1 := by unfold wrap64; omega
  have hw2 : wrap64 (n + 1 + -1) = n := by unfold wrap64; omega
  have hw3 : wrap64 n = n := by unfold wrap64; omega
  have hnz : ¬(n = 0) := by omega
  refine ⟨?_, ?_, ?_⟩ <;>
    simp [runOn, incDecHarness_blocks_nd, incDecBlocksND, runFrom,
      findBlock, execInstrs, execInstr, evalOp, setReg,
      updFun, updMem, cmpHolds, hm, hw1, hw2, hw3, hnz, RtValue.int.injEq,
      runRet, runTrace, runMemAt]

theorem incDec_run_d (tr : Bool) (n rt0 : Int) (a : Addr)
    (m0 : Addr → RtValue) (ext : Oracle)
    (hm : m0 (Addr.field a (FIELD_REFCNT ⟨true, tr⟩)) = .int n)
    (hrt : m0 (Addr.global "_Py_RefTotal") = .int rt0)
    (h1 : 1 ≤ n) (hhi : n + 1 < 2 ^ 63) :
    runRet (runOn ext (incDecHarness ⟨true, tr⟩) m0 (.addr a) 8) =
      some .null ∧
    runTrace (runOn ext (incDecHarness ⟨true, tr⟩) m0 (.addr a) 8) =
      some [] ∧
    runMemAt (runOn ext (incDecHarness ⟨true, tr⟩) m0 (.addr a) 8)
      (Addr.field a (FIELD_REFCNT ⟨true, tr⟩)) = some (.int n) := by
  have hw1 : wrap64 (n + 1) = n + 1 := by unfold wrap64; omega
  have hw2 : wrap64 (n + 1 + -1) = n := by unfold wrap64; omega
  have hw3 : wrap64 n = n := by unfold wrap64; omega
  have hnz : ¬(n = 0) := by omega
  have hng : ¬(n < 0) := by omega
  refine ⟨?_, ?_, ?_⟩ <;>
    simp [runOn, incDecHarness_blocks_d, incDecBlocksD, runFrom,
      findBlock, execInstrs, execInstr, evalOp, setReg,
      updFun, updMem, cmpHolds, hm, hrt, hw1, hw2, hw3, hnz, hng,
      RtValue.int.injEq, runRet, runTrace, runMemAt]


theorem pushPop_run (cfg : Config) (w : RtValue) (fa ca sb : Addr)
    (k nl : Int) (m0 : Addr → RtValue) (ext : Oracle)
    (hst : m0 (Addr.field fa FRAME_FIELD_STACKTOP) = .addr (.index sb k))
    (hcode : m0 (Addr.field fa FRAME_FIELD_CODE) = .addr ca)
    (hnl : m0 (Addr.field ca CODE_FIELD_NLOCALS) = .int nl)
    (hv : m0 (Addr.field ca CODE_FIELD_VARNAMES) = w) :
    runRet (runOn ext (pushPopHarness cfg (.reg 6)) m0 (.addr fa) 8) =
      some w ∧
    runMemAt (runOn ext (pushPopHarness cfg (.reg 6)) m0 (.addr fa) 8)
      (Addr.alloca 0) = some (.addr (.index sb k)) ∧
    runMemAt (runOn ext (pushPopHarness cfg (.reg 6)) m0 (.addr fa) 8)
      (Addr.index sb k) = some w ∧
    (∀ f : Nat,
      runMemAt (runOn ext (pushPopHarness cfg (.reg 6)) m0 (.addr fa) 8)
        (Addr.field fa f) = some (m0 (Addr.field fa f))) := by
  refine ⟨?_, ?_, ?_, fun f => ?_⟩ <;>
    simp [runOn, pushPopHarness_blocks, pushPopBlocks, preludeInstrs,
      runFrom, findBlock, execInstrs, execInstr, evalOp, setReg,
      updFun, updMem, cmpHolds, Addr.offset, hst, hcode, hnl, hv,
      runRet, runTrace, runMemAt]


set_option maxHeartbeats 1600000 in
theorem loadFast_run_nd (tr : Bool) (i : Int) (fa ca : Addr) (nl : Int)
    (m0 : Addr → RtValue) (ext : Oracle)
    (hcode : m0 (Addr.field fa FRAME_FIELD_CODE) = .addr ca)
    (hnl : m0 (Addr.field ca CODE_FIELD_NLOCALS) = .int nl)
    (hslot : m0 (Addr.offset (Addr.field fa FRAME_FIELD_LOCALSPLUS) i) =
      .null)
    (hname : ext "PyTuple_GetItem"
      [m0 (Addr.field ca CODE_FIELD_VARNAMES), .int i] ≠ .null)
    (hstr : ext "PyString_AsString"
      [ext "PyTuple_GetItem"
        [m0 (Addr.field ca CODE_FIELD_VARNAMES), .int i]] ≠ .null) :
    runRet (runOn ext (loadFastHarness ⟨false, tr⟩ i) m0 (.addr fa) 8) =
      some .null ∧
    runTrace (runOn ext (loadFastHarness ⟨false, tr⟩ i) m0 (.addr fa) 8) =
      some [("PyTuple_GetItem",
             [m0 (Addr.field ca CODE_FIELD_VARNAMES), .int i]),
            ("PyString_AsString",
             [ext "PyTuple_GetItem"
               [m0 (Addr.field ca CODE_FIELD_VARNAMES), .int i]]),
            ("PyErr_Format",
             [m0 (Addr.global "PyExc_UnboundLocalError"),
              .addr (.field (.global UNBOUNDLOCAL_ERROR_MSG) 0),
              ext "PyString_AsString"
                [ext "PyTuple_GetItem"
                  [m0 (Addr.field ca CODE_FIELD_VARNAMES), .int i]]])] ∧
    (∀ x : Addr, x ≠ Addr.alloca 0 →
      runMemAt (runOn ext (loadFastHarness ⟨false, tr⟩ i) m0 (.addr fa) 8)
        x = some (m0 x)) := by
  have hoz : ∀ a : Addr, Addr.offset a 0 = a := by
    intro a; unfold Addr.offset; simp
  have hne : ∀ (b : Addr) (f : Nat) (j : Int) (n : Nat),
      Addr.offset (Addr.field b f) j ≠ Addr.alloca n := by
    intro b f j n; unfold Addr.offset
    split
    · simp
    · simp
  refine ⟨?_, ?_, fun x hx => ?_⟩ <;>
    simp [runOn, loadFastHarness_blocks_nd, loadFastBlocksND,
      preludeInstrs, runFrom, findBlock, execInstrs, execInstr,
      evalOp, setReg, updFun, updMem, cmpHolds, hoz, hne,
      hcode, hnl, hslot, hname, hstr,
      runRet, runTrace, runMemAt, *]


set_option maxHeartbeats 1600000 in
theorem loadFast_run_d (tr : Bool) (i : Int) (fa ca : Addr) (nl : Int)
    (m0 : Addr → RtValue) (ext : Oracle)
    (hcode : m0 (Addr.field fa FRAME_FIELD_CODE) = .addr ca)
    (hnl : m0 (Addr.field ca CODE_FIELD_NLOCALS) = .int nl)
    (hslot : m0 (Addr.offset (Addr.field fa FRAME_FIELD_LOCALSPLUS) i) =
      .null)
    (hname : ext "PyTuple_GetItem"
      [m0 (Addr.field ca CODE_FIELD_VARNAMES), .int i] ≠ .null)
    (hstr : ext "PyString_AsString"
      [ext "PyTuple_GetItem"
        [m0 (Addr.field ca CODE_FIELD_VARNAMES), .int i]] ≠ .null) :
    runRet (runOn ext (loadFastHarness ⟨true, tr⟩ i) m0 (.addr fa) 8) =
      some .null ∧
    runTrace (runOn ext (loadFastHarness ⟨true, tr⟩ i) m0 (.addr fa) 8) =
      some [("PyTuple_GetItem",
             [m0 (Addr.field ca CODE_FIELD_VARNAMES), .int i]),
            ("PyString_AsString",
             [ext "PyTuple_GetItem"
               [m0 (Addr.field ca CODE_FIELD_VARNAMES), .int i]]),
            ("PyErr_Format",
             [m0 (Addr.global "PyExc_UnboundLocalError"),
              .addr (.field (.global UNBOUNDLOCAL_ERROR_MSG) 0),
              ext "PyString_AsString"
                [ext "PyTuple_GetItem"
                  [m0 (Addr.field ca CODE_FIELD_VARNAMES), .int i]]])] ∧
    (∀ x : Addr, x ≠ Addr.alloca 0 →
      runMemAt (runOn ext (loadFastHarness ⟨true, tr⟩ i) m0 (.addr fa) 8)
        x = some (m0 x)) := by
  have hoz : ∀ a : Addr, Addr.offset a 0 = a := by
    intro a; unfold Addr.offset; simp
  have hne : ∀ (b : Addr) (f : Nat) (j : Int) (n : Nat),
      Addr.offset (Addr.field b f) j ≠ Addr.alloca n := by
    intro b f j n; unfold Addr.offset
    split
    · simp
    · simp
  refine ⟨?_, ?_, fun x hx => ?_⟩ <;>
    simp [runOn, loadFastHarness_blocks_d, loadFastBlocksD,
      preludeInstrs, runFrom, findBlock, execInstrs, execInstr,
      evalOp, setReg, updFun, updMem, cmpHolds, hoz, hne,
      hcode, hnl, hslot, hname, hstr,
      runRet, runTrace, runMemAt, *]


/-- C5: in the code emitted by `FormatExcCheckArg`, the external
error-formatting routine `PyErr_Format` is called if and only if the
argument value is not the null sentinel and its conversion via
`PyString_AsString` does not produce null; in all other cases control
skips straight to the join block without calling the formatter, the
emitted code never stores to memory, and it always reaches the join
block (the harness return). -/
theorem format_exc_check_arg_best_effort (cfg : Config) (exc fmt : String) (v : RtValue)
    (m0 : Addr → RtValue) (ext : Oracle) :
    runRet (runOn ext (fmtHarness cfg exc fmt) m0 v 8) = some .null ∧
    runTrace (runOn ext (fmtHarness cfg exc fmt) m0 v 8) =
      some (if v = .null then []
        else if ext "PyString_AsString" [v] = .null then
          [("PyString_AsString", [v])]
        else
          [("PyString_AsString", [v]),
           ("PyErr_Format",
            [m0 (Addr.global exc), .addr (.field (.global fmt) 0),
             ext "PyString_AsString" [v]])]) ∧
    (∀ x : Addr,
      runMemAt (runOn ext (fmtHarness cfg exc fmt) m0 v 8) x =
        some (m0 x)) := by
  by_cases hv : v = RtValue.null
  · refine ⟨?_, ?_, fun x => ?_⟩ <;>
      simp [runOn, fmtHarness_blocks, fmtBlocks, runFrom, findBlock,
        execInstrs, execInstr, evalOp, setReg, updFun, updMem, cmpHolds,
        hv, runRet, runTrace, runMemAt]
  · by_cases hs : ext "PyString_AsString" [v] = RtValue.null <;>
      refine ⟨?_, ?_, fun x => ?_⟩ <;>
      simp [runOn, fmtHarness_blocks, fmtBlocks, runFrom, findBlock,
        execInstrs, execInstr, evalOp, setReg, updFun, updMem, cmpHolds,
        hv, hs, runRet, runTrace, runMemAt]

/-! ### Memoization lemmas for the layout registry and symbol cache -/

theorem objectTyCache_lookup (cfg : Config) (m : Module) :
    ((objectTyCache cfg m).2).getTypeByName "__pyobject" =
      some (objectTyCache cfg m).1 := by
  unfold objectTyCache
  cases h : m.getTypeByName "__pyobject" with
  | some t => simp [h]
  | none => simp [h, Module.getTypeByName, Module.addTypeName, List.find?]

theorem objectTyCache_cached (cfg : Config) (m : Module) (t : LType)
    (h : m.getTypeByName "__pyobject" = some t) :
    objectTyCache cfg m = (t, m) := by
  unfold objectTyCache; simp [h]

theorem objectTyCache_idem (cfg : Config) (m : Module) :
    objectTyCache cfg (objectTyCache cfg m).2 =
      ((objectTyCache cfg m).1, (objectTyCache cfg m).2) :=
  objectTyCache_cached cfg _ _ (objectTyCache_lookup cfg m)

theorem tupleTyCache_lookup (cfg : Config) (m : Module) :
    ((tupleTyCache cfg m).2).getTypeByName "__pytupleobject" =
      some (tupleTyCache cfg m).1 := by
  unfold tupleTyCache
  cases h : m.getTypeByName "__pytupleobject" with
  | some t => simp [h]
  | none => simp [h, Module.getTypeByName, Module.addTypeName, List.find?]

theorem tupleTyCache_cached (cfg : Config) (m : Module) (t : LType)
    (h : m.getTypeByName "__pytupleobject" = some t) :
    tupleTyCache cfg m = (t, m) := by
  unfold tupleTyCache; simp [h]

theorem tupleTyCache_idem (cfg : Config) (m : Module) :
    tupleTyCache cfg (tupleTyCache cfg m).2 =
      ((tupleTyCache cfg m).1, (tupleTyCache cfg m).2) :=
  tupleTyCache_cached cfg _ _ (tupleTyCache_lookup cfg m)

theorem codeTyCache_lookup (cfg : Config) (m : Module) :
    ((codeTyCache cfg m).2).getTypeByName "__pycodeobject" =
      some (codeTyCache cfg m).1 := by
  unfold codeTyCache
  cases h : m.getTypeByName "__pycodeobject" with
  | some t => simp [h]
  | none => simp [h, Module.getTypeByName, Module.addTypeName, List.find?]

theorem codeTyCache_cached (cfg : Config) (m : Module) (t : LType)
    (h : m.getTypeByName "__pycodeobject" = some t) :
    codeTyCache cfg m = (t, m) := by
  unfold codeTyCache; simp [h]

theorem codeTyCache_idem (cfg : Config) (m : Module) :
    codeTyCache cfg (codeTyCache cfg m).2 =
      ((codeTyCache cfg m).1, (codeTyCache cfg m).2) :=
  codeTyCache_cached cfg _ _ (codeTyCache_lookup cfg m)

theorem frameTyCache_lookup (cfg : Config) (m : Module) :
    ((frameTyCache cfg m).2).getTypeByName "__pyframeobject" =
      some (frameTyCache cfg m).1 := by
  unfold frameTyCache
  cases h : m.getTypeByName "__pyframeobject" with
  | some t => simp [h]
  | none => simp [h, Module.getTypeByName, Module.addTypeName, List.find?]

theorem frameTyCache_cached (cfg : Config) (m : Module) (t : LType)
    (h : m.getTypeByName "__pyframeobject" = some t) :
    frameTyCache cfg m = (t, m) := by
  unfold frameTyCache; simp [h]

theorem frameTyCache_idem (cfg : Config) (m : Module) :
    frameTyCache cfg (frameTyCache cfg m).2 =
      ((frameTyCache cfg m).1, (frameTyCache cfg m).2) :=
  frameTyCache_cached cfg _ _ (frameTyCache_lookup cfg m)


theorem get_global_function_found (sigc : Module → LType × Module)
    (name : String) (m : Module) (f : FuncDecl)
    (h : m.getFunction name = some f) :
    get_global_function sigc name m = (f, m) := by
  unfold get_global_function; simp [h]

theorem get_global_function_fresh (sigc : Module → LType × Module)
    (name : String) (m : Module)
    (h : m.getFunction name = none) :
    (get_global_function sigc name m).1.name = name ∧
    (get_global_function sigc name m).1.linkage = .external ∧
    (get_global_function sigc name m).1.hasBody = false ∧
    ((get_global_function sigc name m).2).getFunction name =
      some (get_global_function sigc name m).1 := by
  unfold get_global_function
  simp only [h]
  simp [Module.getFunction, List.find?]

theorem get_global_function_idem (sigc sigc2 : Module → LType × Module)
    (name : String) (m : Module) (h : m.getFunction name = none) :
    get_global_function sigc2 name (get_global_function sigc name m).2 =
      ((get_global_function sigc name m).1,
       (get_global_function sigc name m).2) :=
  get_global_function_found sigc2 name _ _
    (get_global_function_fresh sigc name m h).2.2.2

theorem get_py_reftotal_found (m : Module) (g : GlobalVar)
    (h : m.getGlobalVariable "_Py_RefTotal" = some g) :
    get_py_reftotal m = (g, m) := by
  unfold get_py_reftotal; simp [h]

theorem get_py_reftotal_fresh (m : Module)
    (h : m.getGlobalVariable "_Py_RefTotal" = none) :
    (get_py_reftotal m).1.name = "_Py_RefTotal" ∧
    (get_py_reftotal m).1.isConst = false ∧
    (get_py_reftotal m).1.linkage = .external ∧
    (get_py_reftotal m).1.init = none ∧
    ((get_py_reftotal m).2).getGlobalVariable "_Py_RefTotal" =
      some (get_py_reftotal m).1 := by
  unfold get_py_reftotal
  simp only [h]
  simp [Module.getGlobalVariable, List.find?]

theorem get_py_reftotal_idem (m : Module)
    (h : m.getGlobalVariable "_Py_RefTotal" = none) :
    get_py_reftotal (get_py_reftotal m).2 =
      ((get_py_reftotal m).1, (get_py_reftotal m).2) :=
  get_py_reftotal_found _ _ (get_py_reftotal_fresh m h).2.2.2.2

theorem get_py_dealloc_found (cfg : Config) (m : Module) (f : FuncDecl)
    (h : m.getFunction "_Py_Dealloc" = some f) :
    get_py_dealloc cfg m = (f, m) := by
  unfold get_py_dealloc; simp [h]

theorem get_py_dealloc_lookup (cfg : Config) (m : Module) :
    ((get_py_dealloc cfg m).2).getFunction "_Py_Dealloc" =
      some (get_py_dealloc cfg m).1 := by
  unfold get_py_dealloc
  cases h : m.getFunction "_Py_Dealloc" with
  | some f => simp [h]
  | none => simp [h, Module.getFunction, List.find?]

theorem get_py_dealloc_idem (cfg : Config) (m : Module) :
    get_py_dealloc cfg (get_py_dealloc cfg m).2 =
      ((get_py_dealloc cfg m).1, (get_py_dealloc cfg m).2) :=
  get_py_dealloc_found cfg _ _ (get_py_dealloc_lookup cfg m)


theorem decRefHarness_cur_nd (tr : Bool) :
    (decRefHarness ⟨false, tr⟩).cur = 2 := by
  simp only [decRefHarness, emitInto, bareBuilder, DecRef,
    increment_and_get, getPyReftotalB,
    CreateLoad, CreateStore, CreateAdd, CreateICmp, CreateBitCast,
    CreateStructGEP, CreateGEP, CreateGEP3, CreateCall, CreateAlloca,
    freshReg_run, appendInstr_run, newBlock_run, setInsert_run,
    setTerm_run, onModule_run, StateT.run_bind, StateT.run_pure,
    StateT.run_map, StateT.run_get, StateT.run_set, StateT.run_modify,
    Id.bind_eq, Id.pure_eq, Id.map_eq,
    Bool.false_eq_true, Bool.true_eq_false, eq_self_iff_true,
    if_true, if_false, Nat.reduceAdd, Nat.reduceEqDiff, reduceIte]

theorem decRefHarness_cur_d (tr : Bool) :
    (decRefHarness ⟨true, tr⟩).cur = 2 := by
  simp only [decRefHarness, emitInto, bareBuilder, DecRef,
    increment_and_get, getPyReftotalB,
    CreateLoad, CreateStore, CreateAdd, CreateICmp, CreateBitCast,
    CreateStructGEP, CreateGEP, CreateGEP3, CreateCall, CreateAlloca,
    freshReg_run, appendInstr_run, newBlock_run, setInsert_run,
    setTerm_run, onModule_run, StateT.run_bind, StateT.run_pure,
    StateT.run_map, StateT.run_get, StateT.run_set, StateT.run_modify,
    Id.bind_eq, Id.pure_eq, Id.map_eq,
    Bool.false_eq_true, Bool.true_eq_false, eq_self_iff_true,
    if_true, if_false, Nat.reduceAdd, Nat.reduceEqDiff, reduceIte]

/-! ### The claims -/

/-- C1: for a value whose header reference count is `n` before the
call, the code emitted by `DecRef` calls the external deallocator
`_Py_Dealloc` if and only if the post-decrement count `n - 1` is
exactly zero (in debug builds the negative-count branch reports via
`_Py_NegativeRefcount` without deallocating); the final reference
count is `n - 1`, every branch converges on the single `decref_tail`
continuation block, and the emitter's cursor ends there. -/
theorem decref_calls_dealloc_iff_zero (cfg : Config) (n rt0 : Int)
    (a : Addr) (m0 : Addr → RtValue) (ext : Oracle)
    (hm : m0 (refcntAddr cfg a) = .int n)
    (hrt : m0 (Addr.global "_Py_RefTotal") = .int rt0)
    (hlo : -(2 ^ 63) < n) (hhi : n < 2 ^ 63) :
    runRet (runOn ext (decRefHarness cfg) m0 (.addr a) 8) = some .null ∧
    runTrace (runOn ext (decRefHarness cfg) m0 (.addr a) 8) =
      some (if n - 1 = 0 then [("_Py_Dealloc", [RtValue.addr a])]
        else if cfg.refDebug = true ∧ n - 1 < 0 then
          [("_Py_NegativeRefcount",
            [RtValue.str "Python/ll_compile.cc", .int decRefSourceLine,
             .addr a])]
        else []) ∧
    runMemAt (runOn ext (decRefHarness cfg) m0 (.addr a) 8)
      (refcntAddr cfg a) = some (.int (n - 1)) ∧
    blocksConverge (decRefHarness cfg).blocks 2 = true ∧
    (decRefHarness cfg).cur = 2 := by
  obtain ⟨rd, tr⟩ := cfg
  simp only [refcntAddr] at hm
  cases rd
  · obtain ⟨h1, h2, h3⟩ := decRef_run_nd tr n a m0 ext hm hlo hhi
    refine ⟨h1, ?_, h3, ?_, decRefHarness_cur_nd tr⟩
    · rw [h2]
      by_cases hz : n - 1 = 0 <;> simp [hz]
    · rw [decRefHarness_blocks_nd]
      cases tr <;> decide
  · obtain ⟨h1, h2, h3⟩ := decRef_run_d tr n rt0 a m0 ext hm hrt hlo hhi
    refine ⟨h1, ?_, h3, ?_, decRefHarness_cur_d tr⟩
    · rw [h2]
      by_cases hz : n - 1 = 0 <;> simp [hz]
    · rw [decRefHarness_blocks_d]
      cases tr <;> decide

def c1mem : Addr → RtValue :=
  fun x => if x = Addr.field (Addr.global "obj") 0 then .int 1 else .int 0

def c1ext : Oracle := fun _ _ => .null

/-- Witness for C1 at `n = 1` (debug build, no trace-refs): the
deallocator is called exactly once. -/
theorem decref_calls_dealloc_iff_zero_witness :
    (c1mem (refcntAddr ⟨true, false⟩ (Addr.global "obj")) = .int 1 ∧
     c1mem (Addr.global "_Py_RefTotal") = .int 0 ∧
     -(2 ^ 63) < (1 : Int) ∧ (1 : Int) < 2 ^ 63) ∧
    runTrace (runOn c1ext (decRefHarness ⟨true, false⟩) c1mem
        (.addr (Addr.global "obj")) 8) =
      some [("_Py_Dealloc", [RtValue.addr (Addr.global "obj")])] := by
  refine ⟨⟨by decide, by decide, by decide, by decide⟩, ?_⟩
  have h := (decref_calls_dealloc_iff_zero ⟨true, false⟩ 1 0
    (Addr.global "obj") c1mem c1ext (by decide) (by decide)
    (by decide) (by decide)).2.1
  simpa using h


/-- C3: `IncRef` immediately followed by `DecRef` on the same value
with header reference count `n ≥ 1` leaves the count at `n`, performs
no external calls (in particular never invokes the deallocator), and
returns through the normal continuation. -/
theorem incref_decref_preserves_count (cfg : Config) (n rt0 : Int)
    (a : Addr) (m0 : Addr → RtValue) (ext : Oracle)
    (hm : m0 (refcntAddr cfg a) = .int n)
    (hrt : m0 (Addr.global "_Py_RefTotal") = .int rt0)
    (h1 : 1 ≤ n) (hhi : n + 1 < 2 ^ 63) :
    runRet (runOn ext (incDecHarness cfg) m0 (.addr a) 8) = some .null ∧
    runTrace (runOn ext (incDecHarness cfg) m0 (.addr a) 8) = some [] ∧
    runMemAt (runOn ext (incDecHarness cfg) m0 (.addr a) 8)
      (refcntAddr cfg a) = some (.int n) := by
  obtain ⟨rd, tr⟩ := cfg
  simp only [refcntAddr] at hm ⊢
  cases rd
  · exact incDec_run_nd tr n a m0 ext hm h1 hhi
  · exact incDec_run_d tr n rt0 a m0 ext hm hrt h1 hhi

def c3mem : Addr → RtValue :=
  fun x => if x = Addr.field (Addr.global "obj") 2 then .int 5 else .int 0

/-- Witness for C3 at `n = 5` (debug build with trace-refs, so the
reference count lives at header field 2). -/
theorem incref_decref_preserves_count_witness :
    (c3mem (refcntAddr ⟨true, true⟩ (Addr.global "obj")) = .int 5 ∧
     c3mem (Addr.global "_Py_RefTotal") = .int 0 ∧
     (1 : Int) ≤ 5 ∧ (5 : Int) + 1 < 2 ^ 63) ∧
    (runTrace (runOn c1ext (incDecHarness ⟨true, true⟩) c3mem
        (.addr (Addr.global "obj")) 8) = some [] ∧
     runMemAt (runOn c1ext (incDecHarness ⟨true, true⟩) c3mem
        (.addr (Addr.global "obj")) 8)
        (refcntAddr ⟨true, true⟩ (Addr.global "obj")) = some (.int 5)) := by
  refine ⟨⟨by decide, by decide, by decide, by decide⟩, ?_, ?_⟩
  · exact (incref_decref_preserves_count ⟨true, true⟩ 5 0
      (Addr.global "obj") c3mem c1ext (by decide) (by decide)
      (by decide) (by decide)).2.1
  · exact (incref_decref_preserves_count ⟨true, true⟩ 5 0
      (Addr.global "obj") c3mem c1ext (by decide) (by decide)
      (by decide) (by decide)).2.2

/-- C7: executing the code emitted by `Pop()` immediately after the
code emitted by `Push(v)` returns the pushed value, stores it at the
pre-push cursor, and leaves the stack cursor (the alloca slot) equal
to its value before the push; the emitted shape (load cursor, store at
cursor, advance by one; load cursor, compute cursor−1, load, store
cursor−1 back) is `pushPopBlocks`. -/
theorem push_then_pop_roundtrip (cfg : Config) (w : RtValue)
    (fa ca sb : Addr) (k nl : Int) (m0 : Addr → RtValue) (ext : Oracle)
    (hst : m0 (Addr.field fa FRAME_FIELD_STACKTOP) = .addr (.index sb k))
    (hcode : m0 (Addr.field fa FRAME_FIELD_CODE) = .addr ca)
    (hnl : m0 (Addr.field ca CODE_FIELD_NLOCALS) = .int nl)
    (hv : m0 (Addr.field ca CODE_FIELD_VARNAMES) = w) :
    runRet (runOn ext (pushPopHarness cfg (.reg 6)) m0 (.addr fa) 8) =
      some w ∧
    runMemAt (runOn ext (pushPopHarness cfg (.reg 6)) m0 (.addr fa) 8)
      (Addr.alloca 0) = some (.addr (.index sb k)) ∧
    runMemAt (runOn ext (pushPopHarness cfg (.reg 6)) m0 (.addr fa) 8)
      (Addr.index sb k) = some w ∧
    (pushPopHarness cfg (.reg 6)).blocks = pushPopBlocks (.reg 6) := by
  obtain ⟨h1, h2, h3, _⟩ := pushPop_run cfg w fa ca sb k nl m0 ext
    hst hcode hnl hv
  exact ⟨h1, h2, h3, pushPopHarness_blocks cfg _⟩

def c7mem : Addr → RtValue := fun x =>
  if x = Addr.field (Addr.global "f") FRAME_FIELD_STACKTOP then
    .addr (Addr.index (Addr.global "stack") 3)
  else if x = Addr.field (Addr.global "f") FRAME_FIELD_CODE then
    .addr (Addr.global "co")
  else if x = Addr.field (Addr.global "co") CODE_FIELD_NLOCALS then
    .int 2
  else if x = Addr.field (Addr.global "co") CODE_FIELD_VARNAMES then
    .str "pushed"
  else .int 0

/-- Witness for C7: push the value `.str "pushed"`, pop it back. -/
theorem push_then_pop_roundtrip_witness :
    (c7mem (Addr.field (Addr.global "f") FRAME_FIELD_STACKTOP) =
       .addr (.index (Addr.global "stack") 3) ∧
     c7mem (Addr.field (Addr.global "f") FRAME_FIELD_CODE) =
       .addr (Addr.global "co") ∧
     c7mem (Addr.field (Addr.global "co") CODE_FIELD_NLOCALS) = .int 2 ∧
     c7mem (Addr.field (Addr.global "co") CODE_FIELD_VARNAMES) =
       .str "pushed") ∧
    (runRet (runOn c1ext (pushPopHarness ⟨false, false⟩ (.reg 6)) c7mem
        (.addr (Addr.global "f")) 8) = some (.str "pushed") ∧
     runMemAt (runOn c1ext (pushPopHarness ⟨false, false⟩ (.reg 6)) c7mem
        (.addr (Addr.global "f")) 8) (Addr.alloca 0) =
       some (.addr (.index (Addr.global "stack") 3))) := by
  refine ⟨⟨by decide, by decide, by decide, by decide⟩, ?_, ?_⟩
  · exact (push_then_pop_roundtrip ⟨false, false⟩ (.str "pushed")
      (Addr.global "f") (Addr.global "co") (Addr.global "stack") 3 2
      c7mem c1ext (by decide) (by decide) (by decide) (by decide)).1
  · exact (push_then_pop_roundtrip ⟨false, false⟩ (.str "pushed")
      (Addr.global "f") (Addr.global "co") (Addr.global "stack") 3 2
      c7mem c1ext (by decide) (by decide) (by decide) (by decide)).2.1


/-- C2: when local slot `i` holds the null sentinel, the function
emitted for `LOAD_FAST i; RETURN_VALUE` performs no store outside its
own cursor slot (in particular no reference count changes), makes
exactly the three external calls `PyTuple_GetItem(varnames, i)`,
`PyString_AsString(name)` and `PyErr_Format(exc, fmt, str)` — the
formatter exactly once, with the name fetched from the varnames tuple
at index `i` — and returns the null sentinel without executing the
subsequently emitted instructions. -/
theorem loadfast_unbound_path (cfg : Config) (i : Int) (fa ca : Addr)
    (nl : Int) (m0 : Addr → RtValue) (ext : Oracle)
    (hcode : m0 (Addr.field fa FRAME_FIELD_CODE) = .addr ca)
    (hnl : m0 (Addr.field ca CODE_FIELD_NLOCALS) = .int nl)
    (hslot : m0 (Addr.offset (Addr.field fa FRAME_FIELD_LOCALSPLUS) i) =
      .null)
    (hname : ext "PyTuple_GetItem"
      [m0 (Addr.field ca CODE_FIELD_VARNAMES), .int i] ≠ .null)
    (hstr : ext "PyString_AsString"
      [ext "PyTuple_GetItem"
        [m0 (Addr.field ca CODE_FIELD_VARNAMES), .int i]] ≠ .null) :
    runRet (runOn ext (loadFastHarness cfg i) m0 (.addr fa) 8) =
      some .null ∧
    runTrace (runOn ext (loadFastHarness cfg i) m0 (.addr fa) 8) =
      some [("PyTuple_GetItem",
             [m0 (Addr.field ca CODE_FIELD_VARNAMES), .int i]),
            ("PyString_AsString",
             [ext "PyTuple_GetItem"
               [m0 (Addr.field ca CODE_FIELD_VARNAMES), .int i]]),
            ("PyErr_Format",
             [m0 (Addr.global "PyExc_UnboundLocalError"),
              .addr (.field (.global UNBOUNDLOCAL_ERROR_MSG) 0),
              ext "PyString_AsString"
                [ext "PyTuple_GetItem"
                  [m0 (Addr.field ca CODE_FIELD_VARNAMES), .int i]]])] ∧
    (∀ x : Addr, x ≠ Addr.alloca 0 →
      runMemAt (runOn ext (loadFastHarness cfg i) m0 (.addr fa) 8) x =
        some (m0 x)) := by
  obtain ⟨rd, tr⟩ := cfg
  cases rd
  · exact loadFast_run_nd tr i fa ca nl m0 ext hcode hnl hslot hname hstr
  · exact loadFast_run_d tr i fa ca nl m0 ext hcode hnl hslot hname hstr

def c2mem : Addr → RtValue := fun x =>
  if x = Addr.field (Addr.global "f") FRAME_FIELD_CODE then
    .addr (Addr.global "co")
  else if x = Addr.field (Addr.global "co") CODE_FIELD_NLOCALS then
    .int 2
  else if x = Addr.offset
      (Addr.field (Addr.global "f") FRAME_FIELD_LOCALSPLUS) 1 then
    .null
  else .int 0

def c2ext : Oracle := fun f _ =>
  if f = "PyTuple_GetItem" then .str "x"
  else if f = "PyString_AsString" then .str "x" else .null

/-- Witness for C2 at slot index 1: the emitted function returns null
and the slot's memory stays untouched. -/
theorem loadfast_unbound_path_witness :
    (c2mem (Addr.field (Addr.global "f") FRAME_FIELD_CODE) =
       .addr (Addr.global "co") ∧
     c2mem (Addr.field (Addr.global "co") CODE_FIELD_NLOCALS) = .int 2 ∧
     c2mem (Addr.offset
       (Addr.field (Addr.global "f") FRAME_FIELD_LOCALSPLUS) 1) = .null ∧
     c2ext "PyTuple_GetItem"
       [c2mem (Addr.field (Addr.global "co") CODE_FIELD_VARNAMES),
        .int 1] ≠ .null ∧
     c2ext "PyString_AsString"
       [c2ext "PyTuple_GetItem"
         [c2mem (Addr.field (Addr.global "co") CODE_FIELD_VARNAMES),
          .int 1]] ≠ .null) ∧
    (runRet (runOn c2ext (loadFastHarness ⟨false, false⟩ 1) c2mem
        (.addr (Addr.global "f")) 8) = some .null ∧
     runMemAt (runOn c2ext (loadFastHarness ⟨false, false⟩ 1) c2mem
        (.addr (Addr.global "f")) 8)
        (Addr.offset
          (Addr.field (Addr.global "f") FRAME_FIELD_LOCALSPLUS) 1) =
       some .null) := by
  refine ⟨⟨by decide, by decide, by decide, by decide, by decide⟩, ?_, ?_⟩
  · exact (loadfast_unbound_path ⟨false, false⟩ 1 (Addr.global "f")
      (Addr.global "co") 2 c2mem c2ext (by decide) (by decide)
      (by decide) (by decide) (by decide)).1
  · have h := (loadfast_unbound_path ⟨false, false⟩ 1 (Addr.global "f")
      (Addr.global "co") 2 c2mem c2ext (by decide) (by decide)
      (by decide) (by decide) (by decide)).2.2
    rw [h _ (by decide)]
    decide


/-- C4 counterexample: the claim's exact message template
`"local variable '%s' referenced before assignment"` does not occur in
the emitted code; the format-string constant the error path
materializes is `UNBOUNDLOCAL_ERROR_MSG`, which uses `%.200s`. -/
theorem loadfast_template_counterexample :
    UNBOUNDLOCAL_ERROR_MSG ≠
      "local variable '%s' referenced before assignment" ∧
    ((loadFastHarness ⟨false, false⟩ 0).module.globals.filter
      (fun g => g.init ==
        some "local variable '%s' referenced before assignment")) = [] ∧
    ((loadFastHarness ⟨false, false⟩ 0).module.globals.filter
      (fun g => g.init == some UNBOUNDLOCAL_ERROR_MSG)).map
        (fun g => (g.name, g.isConst, g.linkage)) =
      [(UNBOUNDLOCAL_ERROR_MSG, true, Linkage.internal)] := by
  refine ⟨by decide, by decide, by decide⟩


/-- C4 (amended): on the unbound branch, `LOAD_FAST` emits the error
path with the exact message template
`"local variable '%.200s' referenced before assignment"` (materialized
as an internal constant global), the variable name passed to it is
fetched from the varnames tuple (`co_varnames`, code-object field 8),
and the emitted function returns the null sentinel immediately — the
three external calls are the fetch, the string conversion, and the
formatter. -/
theorem loadfast_unbound_amended (cfg : Config) (i : Int) (fa ca : Addr)
    (nl : Int) (m0 : Addr → RtValue) (ext : Oracle)
    (hcode : m0 (Addr.field fa FRAME_FIELD_CODE) = .addr ca)
    (hnl : m0 (Addr.field ca CODE_FIELD_NLOCALS) = .int nl)
    (hslot : m0 (Addr.offset (Addr.field fa FRAME_FIELD_LOCALSPLUS) i) =
      .null)
    (hname : ext "PyTuple_GetItem"
      [m0 (Addr.field ca CODE_FIELD_VARNAMES), .int i] ≠ .null)
    (hstr : ext "PyString_AsString"
      [ext "PyTuple_GetItem"
        [m0 (Addr.field ca CODE_FIELD_VARNAMES), .int i]] ≠ .null) :
    UNBOUNDLOCAL_ERROR_MSG =
      "local variable '%.200s' referenced before assignment" ∧
    runRet (runOn ext (loadFastHarness cfg i) m0 (.addr fa) 8) =
      some .null ∧
    (runTrace (runOn ext (loadFastHarness cfg i) m0 (.addr fa) 8)).map
        List.head? =
      some (some ("PyTuple_GetItem",
        [m0 (Addr.field ca CODE_FIELD_VARNAMES), .int i])) ∧
    (runTrace (runOn ext (loadFastHarness cfg i) m0 (.addr fa) 8)).map
        (fun t => t.map (fun c => c.1)) =
      some ["PyTuple_GetItem", "PyString_AsString", "PyErr_Format"] ∧
    ((loadFastHarness ⟨false, false⟩ 0).module.globals.filter
      (fun g => g.init == some UNBOUNDLOCAL_ERROR_MSG)).map
        (fun g => (g.name, g.isConst, g.linkage)) =
      [(UNBOUNDLOCAL_ERROR_MSG, true, Linkage.internal)] := by
  have hb : runRet (runOn ext (loadFastHarness cfg i) m0 (.addr fa) 8) =
        some .null ∧
      runTrace (runOn ext (loadFastHarness cfg i) m0 (.addr fa) 8) =
        some [("PyTuple_GetItem",
               [m0 (Addr.field ca CODE_FIELD_VARNAMES), .int i]),
              ("PyString_AsString",
               [ext "PyTuple_GetItem"
                 [m0 (Addr.field ca CODE_FIELD_VARNAMES), .int i]]),
              ("PyErr_Format",
               [m0 (Addr.global "PyExc_UnboundLocalError"),
                .addr (.field (.global UNBOUNDLOCAL_ERROR_MSG) 0),
                ext "PyString_AsString"
                  [ext "PyTuple_GetItem"
                    [m0 (Addr.field ca CODE_FIELD_VARNAMES), .int i]]])] := by
    obtain ⟨rd, tr⟩ := cfg
    cases rd
    · obtain ⟨h1, h2, _⟩ :=
        loadFast_run_nd tr i fa ca nl m0 ext hcode hnl hslot hname hstr
      exact ⟨h1, h2⟩
    · obtain ⟨h1, h2, _⟩ :=
        loadFast_run_d tr i fa ca nl m0 ext hcode hnl hslot hname hstr
      exact ⟨h1, h2⟩
  refine ⟨rfl, hb.1, ?_, ?_, by decide⟩
  · rw [hb.2]; rfl
  · rw [hb.2]; rfl

/-- Witness for the amended C4 at slot index 1. -/
theorem loadfast_unbound_amended_witness :
    (c2mem (Addr.field (Addr.global "f") FRAME_FIELD_CODE) =
       .addr (Addr.global "co") ∧
     c2mem (Addr.field (Addr.global "co") CODE_FIELD_NLOCALS) = .int 2 ∧
     c2mem (Addr.offset
       (Addr.field (Addr.global "f") FRAME_FIELD_LOCALSPLUS) 1) = .null) ∧
    (runTrace (runOn c2ext (loadFastHarness ⟨true, false⟩ 1) c2mem
        (.addr (Addr.global "f")) 8)).map (fun t => t.map (fun c => c.1)) =
      some ["PyTuple_GetItem", "PyString_AsString", "PyErr_Format"] := by
  refine ⟨⟨by decide, by decide, by decide⟩, ?_⟩
  exact (loadfast_unbound_amended ⟨true, false⟩ 1 (Addr.global "f")
    (Addr.global "co") 2 c2mem c2ext (by decide) (by decide)
    (by decide) (by decide) (by decide)).2.2.2.1


/-- C6: for every entity kind (object header, tuple, code object,
frame), the layout lookup is memoized per compilation unit: after any
call, the layout is registered under the kind's module name, and a
second call returns the identical layout handle with the module
unchanged. -/
theorem layout_cache_idempotent (cfg : Config) (m : Module) :
    objectTyCache cfg (objectTyCache cfg m).2 = objectTyCache cfg m ∧
    tupleTyCache cfg (tupleTyCache cfg m).2 = tupleTyCache cfg m ∧
    codeTyCache cfg (codeTyCache cfg m).2 = codeTyCache cfg m ∧
    frameTyCache cfg (frameTyCache cfg m).2 = frameTyCache cfg m ∧
    ((objectTyCache cfg m).2).getTypeByName "__pyobject" =
      some (objectTyCache cfg m).1 ∧
    ((tupleTyCache cfg m).2).getTypeByName "__pytupleobject" =
      some (tupleTyCache cfg m).1 ∧
    ((codeTyCache cfg m).2).getTypeByName "__pycodeobject" =
      some (codeTyCache cfg m).1 ∧
    ((frameTyCache cfg m).2).getTypeByName "__pyframeobject" =
      some (frameTyCache cfg m).1 :=
  ⟨objectTyCache_idem cfg m, tupleTyCache_idem cfg m,
   codeTyCache_idem cfg m, frameTyCache_idem cfg m,
   objectTyCache_lookup cfg m, tupleTyCache_lookup cfg m,
   codeTyCache_lookup cfg m, frameTyCache_lookup cfg m⟩

/-- C8: a first lookup of an external function declares it with
external linkage and no body only when no symbol of that name exists in
the unit; every later lookup (with any signature builder) returns the
handle declared by the first and leaves the module unchanged, and a
lookup that finds an existing symbol declares nothing.  The same holds
for the external mutable `_Py_RefTotal` counter (declared without
initializer) and for `_Py_Dealloc`. -/
theorem symbol_cache_declares_once (cfg : Config)
    (sigc sigc2 : Module → LType × Module) (name : String) (m : Module)
    (hf : m.getFunction name = none)
    (hg : m.getGlobalVariable "_Py_RefTotal" = none) :
    (get_global_function sigc name m).1.name = name ∧
    (get_global_function sigc name m).1.linkage = .external ∧
    (get_global_function sigc name m).1.hasBody = false ∧
    get_global_function sigc2 name (get_global_function sigc name m).2 =
      ((get_global_function sigc name m).1,
       (get_global_function sigc name m).2) ∧
    (∀ (m2 : Module) (f0 : FuncDecl), m2.getFunction name = some f0 →
      get_global_function sigc name m2 = (f0, m2)) ∧
    (get_py_reftotal m).1.name = "_Py_RefTotal" ∧
    (get_py_reftotal m).1.isConst = false ∧
    (get_py_reftotal m).1.linkage = .external ∧
    (get_py_reftotal m).1.init = none ∧
    get_py_reftotal (get_py_reftotal m).2 =
      ((get_py_reftotal m).1, (get_py_reftotal m).2) ∧
    (∀ m2 : Module, get_py_dealloc cfg (get_py_dealloc cfg m2).2 =
      ((get_py_dealloc cfg m2).1, (get_py_dealloc cfg m2).2)) := by
  obtain ⟨f1, f2, f3, f4⟩ := get_global_function_fresh sigc name m hf
  obtain ⟨g1, g2, g3, g4, g5⟩ := get_py_reftotal_fresh m hg
  exact ⟨f1, f2, f3, get_global_function_idem sigc sigc2 name m hf,
    fun m2 f0 h => get_global_function_found sigc name m2 f0 h,
    g1, g2, g3, g4, get_py_reftotal_idem m hg,
    fun m2 => get_py_dealloc_idem cfg m2⟩

/-- Witness for C8: declaring `PyErr_Format` in an empty unit. -/
theorem symbol_cache_declares_once_witness :
    (emptyModule.getFunction "PyErr_Format" = none ∧
     emptyModule.getGlobalVariable "_Py_RefTotal" = none) ∧
    ((get_global_function (sigErrFormat ⟨false, false⟩) "PyErr_Format"
        emptyModule).1.linkage = .external ∧
     (get_global_function (sigErrFormat ⟨false, false⟩) "PyErr_Format"
        emptyModule).1.hasBody = false) := by
  refine ⟨⟨rfl, rfl⟩, ?_, ?_⟩
  · exact (symbol_cache_declares_once ⟨false, false⟩
      (sigErrFormat ⟨false, false⟩) (sigErrFormat ⟨false, false⟩)
      "PyErr_Format" emptyModule rfl rfl).2.1
  · exact (symbol_cache_declares_once ⟨false, false⟩
      (sigErrFormat ⟨false, false⟩) (sigErrFormat ⟨false, false⟩)
      "PyErr_Format" emptyModule rfl rfl).2.2.1


/-- The claim that one single build-time switch controls all three
debug-instrumentation features together (total-reference counting,
negative-refcount detection, extra header fields): for every
configuration they are either all emitted or none is. -/
def debugAllOrNone : Prop :=
  ∀ cfg : Config,
    (emitsRefTotalCount cfg = true ∧ emitsNegCheck cfg = true ∧
      headerHasTraceFields cfg = true) ∨
    (emitsRefTotalCount cfg = false ∧ emitsNegCheck cfg = false ∧
      headerHasTraceFields cfg = false)

/-- C9 counterexample: with `Py_REF_DEBUG` defined but `Py_TRACE_REFS`
not (the standard `Py_REF_DEBUG` build), the emitted code maintains the
total-reference counter and performs the negative-refcount check, yet
the object-header layout has no extra debug fields — so no single
switch controls the three together. -/
theorem debug_single_switch_counterexample :
    emitsRefTotalCount ⟨true, false⟩ = true ∧
    emitsNegCheck ⟨true, false⟩ = true ∧
    headerHasTraceFields ⟨true, false⟩ = false ∧
    ¬ debugAllOrNone := by
  refine ⟨by decide, by decide, by decide, fun h => ?_⟩
  rcases h ⟨true, false⟩ with ⟨_, _, h3⟩ | ⟨h1, _, _⟩
  · exact absurd h3 (by decide)
  · exact absurd h1 (by decide)

/-- C9 (amended): two build-time switches control the debug
instrumentation.  `Py_REF_DEBUG` enables the total-reference counting
and the negative-refcount detection together; `Py_TRACE_REFS` (a
separate macro) enables the extra object-header fields. -/
theorem debug_two_switches_amended (cfg : Config) :
    emitsRefTotalCount cfg = cfg.refDebug ∧
    emitsNegCheck cfg = cfg.refDebug ∧
    headerHasTraceFields cfg = cfg.traceRefs := by
  obtain ⟨rd, tr⟩ := cfg
  cases rd <;> cases tr <;> exact ⟨by decide, by decide, by decide⟩


set_option maxRecDepth 4000 in
/-- C10: in a function emitting the constructor plus one of each
implemented opcode (`LOAD_CONST`, `LOAD_FAST`, `RETURN_VALUE`, and the
`Push`/`Pop` cursor operations inside them), the frame's
operand-stack-top field is addressed exactly once (register 1, in the
constructor), read exactly once (to initialize the cursor slot), and
never stored through; and running the constructor + `Push`/`Pop` code
leaves every frame field unchanged. -/
theorem frame_stacktop_read_once (cfg : Config) (w : RtValue)
    (fa ca sb : Addr) (k nl : Int) (m0 : Addr → RtValue) (ext : Oracle)
    (hst : m0 (Addr.field fa FRAME_FIELD_STACKTOP) = .addr (.index sb k))
    (hcode : m0 (Addr.field fa FRAME_FIELD_CODE) = .addr ca)
    (hnl : m0 (Addr.field ca CODE_FIELD_NLOCALS) = .int nl)
    (hv : m0 (Addr.field ca CODE_FIELD_VARNAMES) = w) :
    stacktopGepRegs (allInstrs (combinedHarness cfg)) = [1] ∧
    loadsThrough (allInstrs (combinedHarness cfg)) [1] = 1 ∧
    storesThrough (allInstrs (combinedHarness cfg)) [1] = 0 ∧
    (∀ f : Nat,
      runMemAt (runOn ext (pushPopHarness cfg (.reg 6)) m0 (.addr fa) 8)
        (Addr.field fa f) = some (m0 (Addr.field fa f))) := by
  refine ⟨?_, ?_, ?_,
    (pushPop_run cfg w fa ca sb k nl m0 ext hst hcode hnl hv).2.2.2⟩ <;>
    · obtain ⟨rd, tr⟩ := cfg
      cases rd <;> cases tr <;> decide

set_option maxRecDepth 4000 in
/-- Witness for C10. -/
theorem frame_stacktop_read_once_witness :
    (c7mem (Addr.field (Addr.global "f") FRAME_FIELD_STACKTOP) =
       .addr (.index (Addr.global "stack") 3) ∧
     c7mem (Addr.field (Addr.global "f") FRAME_FIELD_CODE) =
       .addr (Addr.global "co") ∧
     c7mem (Addr.field (Addr.global "co") CODE_FIELD_NLOCALS) = .int 2 ∧
     c7mem (Addr.field (Addr.global "co") CODE_FIELD_VARNAMES) =
       .str "pushed") ∧
    (stacktopGepRegs (allInstrs (combinedHarness ⟨true, true⟩)) = [1] ∧
     runMemAt (runOn c1ext (pushPopHarness ⟨true, true⟩ (.reg 6)) c7mem
        (.addr (Addr.global "f")) 8)
        (Addr.field (Addr.global "f") FRAME_FIELD_STACKTOP) =
       some (c7mem
         (Addr.field (Addr.global "f") FRAME_FIELD_STACKTOP))) := by
  refine ⟨⟨by decide, by decide, by decide, by decide⟩, ?_, ?_⟩
  · exact (frame_stacktop_read_once ⟨true, true⟩ (.str "pushed")
      (Addr.global "f") (Addr.global "co") (Addr.global "stack") 3 2
      c7mem c1ext (by decide) (by decide) (by decide) (by decide)).1
  · exact (frame_stacktop_read_once ⟨true, true⟩ (.str "pushed")
      (Addr.global "f") (Addr.global "co") (Addr.global "stack") 3 2
      c7mem c1ext (by decide) (by decide) (by decide)
      (by decide)).2.2.2 FRAME_FIELD_STACKTOP

end py
